import Mathlib

set_option maxHeartbeats 1000000

/-! Verification development for the `GraphClient` adapter of
`ms-365-mcp-server` (`src/graph-client.ts`).  The TypeScript class is
shallowly embedded: JSON values are an inductive type, the `fetch`
transport, the token refresher and `AuthManager.getToken` are oracles
supplied by a `World`, thrown exceptions are `Except.error` with the
thrown message, and every call additionally returns an effect trace
(issued HTTP requests, refresh attempts, refresher invocations) so that
retry-counting properties are statable. -/

/-- JSON values as exchanged with the Microsoft Graph API.  Numeric
literals are kept verbatim as the source text of the number: the
TypeScript code never computes with numbers, it only parses and
re-serializes them. -/
inductive Json where
  | null : Json
  | bool : Bool → Json
  | num : String → Json
  | str : String → Json
  | arr : List Json → Json
  | obj : List (String × Json) → Json

/-- Lower-case hexadecimal digit, used for control-character escapes. -/
def hexDigit (n : Nat) : String :=
  String.singleton (if n < 10 then Char.ofNat (48 + n) else Char.ofNat (87 + n))

/-- Escaping of a single character inside a JSON string literal, as
performed by JavaScript `JSON.stringify`. -/
def Json.escapeChar (c : Char) : String :=
  if c = '"' then "\\\""
  else if c = '\\' then "\\\\"
  else if c = '\x08' then "\\b"
  else if c = '\x0c' then "\\f"
  else if c = '\n' then "\\n"
  else if c = '\r' then "\\r"
  else if c = '\t' then "\\t"
  else if c.toNat < 32 then "\\u00" ++ hexDigit (c.toNat / 16) ++ hexDigit (c.toNat % 16)
  else String.singleton c

/-- JSON string literal quoting, as performed by `JSON.stringify`. -/
def Json.quote (s : String) : String :=
  "\"" ++ String.join (s.toList.map Json.escapeChar) ++ "\""

mutual

/-- Model of `JSON.stringify(v)` (compact form, no indentation). -/
def Json.stringify : Json → String
  | .null => "null"
  | .bool b => cond b "true" "false"
  | .num lit => lit
  | .str s => Json.quote s
  | .arr xs => "[" ++ Json.stringifyElems xs ++ "]"
  | .obj fs => "\x7b" ++ Json.stringifyFields fs ++ "\x7d"

/-- Comma-separated serialization of array elements. -/
def Json.stringifyElems : List Json → String
  | [] => ""
  | [x] => Json.stringify x
  | x :: y :: xs => Json.stringify x ++ "," ++ Json.stringifyElems (y :: xs)

/-- Comma-separated serialization of object fields. -/
def Json.stringifyFields : List (String × Json) → String
  | [] => ""
  | [(k, v)] => Json.quote k ++ ":" ++ Json.stringify v
  | (k, v) :: f :: fs => Json.quote k ++ ":" ++ Json.stringify v ++ "," ++ Json.stringifyFields (f :: fs)

end

mutual

/-- Model of `JSON.stringify(v, null, 2)` (two-space indentation).  The
second argument is the indentation prefix of the value's closing
bracket. -/
def Json.pretty : Json → String → String
  | .null, _ => "null"
  | .bool b, _ => cond b "true" "false"
  | .num lit, _ => lit
  | .str s, _ => Json.quote s
  | .arr [], _ => "[]"
  | .arr (x :: xs), ind => "[\n" ++ Json.prettyElems (x :: xs) (ind ++ "  ") ++ "\n" ++ ind ++ "]"
  | .obj [], _ => "\x7b\x7d"
  | .obj (f :: fs), ind =>
    "\x7b\n" ++ Json.prettyFields (f :: fs) (ind ++ "  ") ++ "\n" ++ ind ++ "\x7d"

/-- Indented, comma-and-newline separated serialization of array elements. -/
def Json.prettyElems : List Json → String → String
  | [], _ => ""
  | [x], ind => ind ++ Json.pretty x ind
  | x :: y :: ys, ind => ind ++ Json.pretty x ind ++ ",\n" ++ Json.prettyElems (y :: ys) ind

/-- Indented, comma-and-newline separated serialization of object fields. -/
def Json.prettyFields : List (String × Json) → String → String
  | [], _ => ""
  | [(k, v)], ind => ind ++ Json.quote k ++ ": " ++ Json.pretty v ind
  | (k, v) :: g :: gs, ind =>
    ind ++ Json.quote k ++ ": " ++ Json.pretty v ind ++ ",\n" ++ Json.prettyFields (g :: gs) ind

end

/-- Top-level `JSON.stringify(v, null, 2)`. -/
def Json.prettyStringify (v : Json) : String :=
  Json.pretty v ""

/-- Lookup of an object field (JavaScript property access on a parsed
JSON object; keys are unique after parsing, first match wins). -/
def objLookup : List (String × Json) → String → Option Json
  | [], _ => none
  | (k, v) :: fs, key => if k = key then some v else objLookup fs key

/-- Property access `j[key]`: `none` models JavaScript `undefined`. -/
def Json.getField : Json → String → Option Json
  | .obj fs, key => objLookup fs key
  | _, _ => none

/-- Model of the JavaScript `key in j` test (only ever applied to
objects in the source). -/
def Json.hasField (j : Json) (key : String) : Bool :=
  (j.getField key).isSome

/-- Assignment `obj[k] = v` on a JavaScript object: overwrite in place
if the key exists, otherwise append (property-order semantics). -/
def upsertField : List (String × Json) → String → Json → List (String × Json)
  | [], k, v => [(k, v)]
  | (k0, v0) :: fs, k, v =>
    if k0 = k then (k, v) :: fs else (k0, v0) :: upsertField fs k v

/-- JavaScript truthiness of an optional string (`undefined`/`null` and
the empty string are falsy). -/
def truthy : Option String → Bool
  | some s => s ≠ ""
  | none => false

/-- JavaScript `a || b` on optional strings. -/
def jsOr (a b : Option String) : Option String :=
  match a with
  | some s => if s = "" then b else some s
  | none => b

/-- JavaScript `a || d` where the default is a plain string. -/
def jsOrD (a : Option String) (d : String) : String :=
  match a with
  | some s => if s = "" then d else s
  | none => d

/-- Extraction of a string known (via `truthy`) to be present. -/
def getStr (a : Option String) : String :=
  a.getD ""

/-- Mantissa-is-zero test on a numeric literal, used for JavaScript
truthiness of numbers (literals such as `0`, `-0`, `0.00`, `0e5`
denote zero and are falsy). -/
def numLitIsZero (lit : String) : Bool :=
  ((lit.toList.takeWhile (fun c => c ≠ 'e' ∧ c ≠ 'E')).filter Char.isDigit).all (· = '0')

/-- JavaScript truthiness of a JSON value. -/
def Json.truthy : Json → Bool
  | .null => false
  | .bool b => b
  | .num lit => ! numLitIsZero lit
  | .str s => s ≠ ""
  | .arr _ => true
  | .obj _ => true

/-- Truthiness of a possibly-`undefined` JSON value. -/
def optTruthy : Option Json → Bool
  | some v => v.truthy
  | none => false

/-- Prefix test on character lists (the needle comes first). -/
def listStarts : List Char → List Char → Bool
  | [], _ => true
  | _ :: _, [] => false
  | a :: as, b :: bs => if a = b then listStarts as bs else false

/-- Infix test on character lists (the haystack comes first). -/
def listHasInfix : List Char → List Char → Bool
  | [], needle => listStarts needle []
  | c :: rest, needle => listStarts needle (c :: rest) || listHasInfix rest needle

/-- Substring test, modelling JavaScript `hay.includes(needle)`. -/
def containsSub (hay needle : String) : Bool :=
  listHasInfix hay.toList needle.toList

/-- Key test for OData service metadata entries, modelling
`key.startsWith("@odata.")`. -/
def isODataKey (k : String) : Bool :=
  listStarts "@odata.".toList k.toList

/-- JSON whitespace characters. -/
def isJsonWs (c : Char) : Bool :=
  c = ' ' || c = '\t' || c = '\n' || c = '\r'

/-- Leading-whitespace removal between JSON tokens. -/
def skipWs : List Char → List Char
  | [] => []
  | c :: cs => if isJsonWs c then skipWs cs else c :: cs

/-- Value of a hexadecimal digit, if any. -/
def hexVal (c : Char) : Option Nat :=
  if '0' ≤ c ∧ c ≤ '9' then some (c.toNat - 48)
  else if 'a' ≤ c ∧ c ≤ 'f' then some (c.toNat - 87)
  else if 'A' ≤ c ∧ c ≤ 'F' then some (c.toNat - 55)
  else none

/-- Body of a JSON string literal after the opening quote: collects
characters until the closing quote, handling the JSON escape sequences.
Unescaped control characters are a parse error, as in `JSON.parse`.
A `\\u` escape is mapped through `Char.ofNat` (UTF-16 surrogate pairs
are not combined; no claim depends on them). -/
def parseStringChars (acc : String) : List Char → Option (String × List Char)
  | [] => none
  | '"' :: rest => some (acc, rest)
  | '\\' :: rest =>
    match rest with
    | 'u' :: h1 :: h2 :: h3 :: h4 :: rest2 =>
      match hexVal h1, hexVal h2, hexVal h3, hexVal h4 with
      | some v1, some v2, some v3, some v4 =>
        parseStringChars (acc.push (Char.ofNat (v1 * 4096 + v2 * 256 + v3 * 16 + v4))) rest2
      | _, _, _, _ => none
    | '"' :: rest2 => parseStringChars (acc.push '"') rest2
    | '\\' :: rest2 => parseStringChars (acc.push '\\') rest2
    | '/' :: rest2 => parseStringChars (acc.push '/') rest2
    | 'b' :: rest2 => parseStringChars (acc.push '\x08') rest2
    | 'f' :: rest2 => parseStringChars (acc.push '\x0c') rest2
    | 'n' :: rest2 => parseStringChars (acc.push '\n') rest2
    | 'r' :: rest2 => parseStringChars (acc.push '\r') rest2
    | 't' :: rest2 => parseStringChars (acc.push '\t') rest2
    | _ => none
  | c :: rest => if c.toNat < 32 then none else parseStringChars (acc.push c) rest

/-- Matching of a fixed literal token (`true`, `false`, `null`). -/
def dropLit : List Char → List Char → Option (List Char)
  | [], cs => some cs
  | _ :: _, [] => none
  | l :: ls, c :: cs => if c = l then dropLit ls cs else none

/-- Optional exponent part of a JSON number; returns the consumed
characters and the remainder. -/
def parseExpPart (cs : List Char) : Option (List Char × List Char) :=
  match cs with
  | 'e' :: rest | 'E' :: rest =>
    let e := cs.head?.getD 'e'
    let (sgn, rest2) :=
      match rest with
      | '+' :: r => ([('+' : Char)], r)
      | '-' :: r => ([('-' : Char)], r)
      | r => ([], r)
    let (ds, rest3) := rest2.span Char.isDigit
    if ds = [] then none else some (e :: sgn ++ ds, rest3)
  | _ => some ([], cs)

/-- Optional fraction part of a JSON number. -/
def parseFracPart (cs : List Char) : Option (List Char × List Char) :=
  match cs with
  | '.' :: rest =>
    let (ds, rest2) := rest.span Char.isDigit
    if ds = [] then none else some ('.' :: ds, rest2)
  | _ => some ([], cs)

/-- JSON number literal (`-?(0|[1-9][0-9]*)(.digits)?([eE][+-]?digits)?`),
returned verbatim together with the remainder. -/
def parseNumberLit (cs : List Char) : Option (String × List Char) :=
  let (sgn, cs1) :=
    match cs with
    | '-' :: r => ([('-' : Char)], r)
    | r => ([], r)
  let (ds, cs2) := cs1.span Char.isDigit
  if ds = [] then none
  else if ds.length > 1 ∧ ds.head? = some '0' then none
  else
    match parseFracPart cs2 with
    | none => none
    | some (frac, cs3) =>
      match parseExpPart cs3 with
      | none => none
      | some (ex, cs4) => some (String.mk (sgn ++ ds ++ frac ++ ex), cs4)

mutual

/-- Model of the value grammar of `JSON.parse`, with explicit fuel (the
input shrinks at every step, so `2 * length + 4` fuel always suffices). -/
def parseValue : Nat → List Char → Option (Json × List Char)
  | 0, _ => none
  | Nat.succ fuel, cs =>
    match cs with
    | [] => none
    | c :: rest =>
      if c = '"' then
        match parseStringChars "" rest with
        | some (s, rest2) => some (Json.str s, rest2)
        | none => none
      else if c = '\x7b' then
        match skipWs rest with
        | '\x7d' :: rest2 => some (Json.obj [], rest2)
        | cs2 => parseMemberLoop fuel cs2 []
      else if c = '[' then
        match skipWs rest with
        | ']' :: rest2 => some (Json.arr [], rest2)
        | cs2 => parseElemLoop fuel cs2 []
      else if c = 't' then
        (dropLit ['t', 'r', 'u', 'e'] cs).map (fun r => (Json.bool true, r))
      else if c = 'f' then
        (dropLit ['f', 'a', 'l', 's', 'e'] cs).map (fun r => (Json.bool false, r))
      else if c = 'n' then
        (dropLit ['n', 'u', 'l', 'l'] cs).map (fun r => (Json.null, r))
      else
        match parseNumberLit cs with
        | some (lit, rest2) => some (Json.num lit, rest2)
        | none => none

/-- Members of a non-empty JSON object (duplicate keys overwrite in
place, as in JavaScript). -/
def parseMemberLoop : Nat → List Char → List (String × Json) → Option (Json × List Char)
  | 0, _, _ => none
  | Nat.succ fuel, cs, acc =>
    match cs with
    | '"' :: rest =>
      match parseStringChars "" rest with
      | none => none
      | some (k, rest2) =>
        match skipWs rest2 with
        | ':' :: rest3 =>
          match parseValue fuel (skipWs rest3) with
          | none => none
          | some (v, rest4) =>
            match skipWs rest4 with
            | ',' :: rest5 => parseMemberLoop fuel (skipWs rest5) (upsertField acc k v)
            | '\x7d' :: rest5 => some (Json.obj (upsertField acc k v), rest5)
            | _ => none
        | _ => none
    | _ => none

/-- Elements of a non-empty JSON array. -/
def parseElemLoop : Nat → List Char → List Json → Option (Json × List Char)
  | 0, _, _ => none
  | Nat.succ fuel, cs, acc =>
    match parseValue fuel cs with
    | none => none
    | some (v, rest) =>
      match skipWs rest with
      | ',' :: rest2 => parseElemLoop fuel (skipWs rest2) (acc ++ [v])
      | ']' :: rest2 => some (Json.arr (acc ++ [v]), rest2)
      | _ => none

end

/-- Model of JavaScript `JSON.parse`: `none` is a thrown `SyntaxError`. -/
def parseJson (s : String) : Option Json :=
  match parseValue (2 * s.length + 4) (skipWs s.toList) with
  | some (v, rest) => if skipWs rest = [] then some v else none
  | none => none

mutual

/-- Pure counterpart of the in-place `removeODataProps` helper of
`formatJsonResponse` (src/graph-client.ts:242-259): keys starting with
`@odata.` are deleted, object-typed values of surviving keys are
recursed into (scalars are untouched), arrays are recursed into
element-wise. -/
def removeODataProps : Json → Json
  | .obj fs => .obj (removeODataFields fs)
  | .arr xs => .arr (removeODataElems xs)
  | .null => .null
  | .bool b => .bool b
  | .num lit => .num lit
  | .str s => .str s

/-- Field-list part of `removeODataProps`. -/
def removeODataFields : List (String × Json) → List (String × Json)
  | [] => []
  | (k, v) :: fs =>
    if isODataKey k then removeODataFields fs
    else (k, removeODataProps v) :: removeODataFields fs

/-- Element-list part of `removeODataProps`. -/
def removeODataElems : List Json → List Json
  | [] => []
  | x :: xs => removeODataProps x :: removeODataElems xs

end

mutual

/-- Presence of an `@odata.`-prefixed key at some nesting depth. -/
def hasODataKey : Json → Bool
  | .obj fs => fieldsHaveOData fs
  | .arr xs => elemsHaveOData xs
  | _ => false

/-- Field-list part of `hasODataKey`. -/
def fieldsHaveOData : List (String × Json) → Bool
  | [] => false
  | (k, v) :: fs => isODataKey k || hasODataKey v || fieldsHaveOData fs

/-- Element-list part of `hasODataKey`. -/
def elemsHaveOData : List Json → Bool
  | [] => false
  | x :: xs => hasODataKey x || elemsHaveOData xs

end

/-- Adapter-local mutable credential pair (`this.accessToken`,
`this.refreshToken` of class `GraphClient`); `none` models `null`. -/
structure GraphState where
  accessToken : Option String
  refreshToken : Option String
deriving DecidableEq

/-- Process environment variables read by `refreshAccessToken`;
`none` models an unset variable. -/
structure Env where
  tenantId : Option String
  clientId : Option String
  clientSecret : Option String
deriving DecidableEq

/-- Response of the external `refreshAccessToken` collaborator
(`lib/microsoft-auth.js`). -/
structure RefreshResponse where
  access_token : String
  refresh_token : Option String
deriving DecidableEq

/-- An HTTP response as observed through `fetch`: status, status text,
headers and the body text produced by `response.text()`. -/
structure HttpResponse where
  status : Nat
  statusText : String
  headers : List (String × String)
  bodyText : String
deriving DecidableEq

/-- The `GraphRequestOptions` bag (src/graph-client.ts:5-15).
`rawResponse`/`includeHeaders` default to `false` (`undefined` is
falsy); the unrecognized-key part of the bag is irrelevant to the
adapter and not modelled. -/
structure Options where
  headers : List (String × String)
  method : Option String
  body : Option String
  rawResponse : Bool
  includeHeaders : Bool
  accessToken : Option String
  refreshToken : Option String
deriving DecidableEq

/-- Options object `{}` (all fields absent). -/
def noOptions : Options :=
  ⟨[], none, none, false, false, none, none⟩

/-- Oracles for one adapter call: the environment, the outcome of
`authManager.getToken()`, the outcome of the n-th `fetch`, and the
outcome of the (single possible) token-refresh exchange.  `Except.error`
models a thrown exception / rejected promise with its message. -/
structure World where
  env : Env
  authToken : Except String (Option String)
  transport : Nat → Except String HttpResponse
  refresher : Except String RefreshResponse

/-- One issued HTTP request, as assembled by `performRequest`
(src/graph-client.ts:140-158).  `token` is the access token the request
was issued with (also present in the `Authorization` header unless the
caller's headers override it). -/
structure IssuedRequest where
  url : String
  method : String
  headers : List (String × String)
  body : Option String
  token : String
deriving DecidableEq

/-- Effect trace of one `makeRequest` call: number of
`authManager.getToken()` consultations, issued HTTP requests in order,
number of entries into `refreshAccessToken`, and the argument tuples
`(refreshToken, clientId, clientSecret, tenantId)` of actual refresher
invocations. -/
structure Trace where
  authCalls : Nat
  requests : List IssuedRequest
  refreshAttempts : Nat
  refresherCalls : List (String × String × String × String)
deriving DecidableEq

/-- Result of `makeRequest`: the returned value or thrown message, the
adapter state after the call, and the effect trace. -/
structure MakeResult where
  result : Except String Json
  state : GraphState
  trace : Trace

/-- One element of the `content` array of an MCP envelope.  `text` is
optional because `JSON.stringify(undefined)` is `undefined` in
JavaScript, which the source can store into `text`. -/
structure ContentItem where
  type : String
  text : Option String

/-- The `McpResponse` envelope (src/graph-client.ts:24-30): `meta` is
the optional `_meta` object, `isError` is absent (`none`) on success. -/
structure McpResponse where
  content : List ContentItem
  meta : Option (List (String × Json))
  isError : Option Bool

/-- ASCII lower-casing of a header name. -/
def lowerStr (s : String) : String :=
  String.mk (s.toList.map Char.toLower)

/-- Case-insensitive header lookup, modelling `Headers.get` of `fetch`
(multiple values of the same header are joined with a comma). -/
def headersGet (hs : List (String × String)) (name : String) : Option String :=
  match hs.filter (fun p => lowerStr p.1 = lowerStr name) with
  | [] => none
  | m => some (String.intercalate ", " (m.map Prod.snd))

/-- Assignment on a string-valued JavaScript object. -/
def upsertStr : List (String × String) → String → String → List (String × String)
  | [], k, v => [(k, v)]
  | (k0, v0) :: fs, k, v =>
    if k0 = k then (k, v) :: fs else (k0, v0) :: upsertStr fs k v

/-- Header-object spread `{...base, ...extra}` (later keys overwrite). -/
def mergeHdrs (base extra : List (String × String)) : List (String × String) :=
  extra.foldl (fun acc p => upsertStr acc p.1 p.2) base

namespace GraphClient

/-- Model of `setOAuthTokens` (src/graph-client.ts:41-44):
`this.accessToken = accessToken; this.refreshToken = refreshToken || null`. -/
def setOAuthTokens (st : GraphState) (accessToken : String) (refreshToken : Option String) : GraphState :=
  let _ := st
  { accessToken := some accessToken
  , refreshToken := if truthy refreshToken then refreshToken else none }

/-- Model of `performRequest` (src/graph-client.ts:140-158): assembles
the URL, default headers overridable by the caller's headers, method
defaulting to `GET`, and hands the request to the transport. -/
def performRequest (endpoint accessToken : String) (options : Options) : IssuedRequest :=
  { url := "https://graph.microsoft.com/v1.0" ++ endpoint
  , method := jsOrD options.method "GET"
  , headers := mergeHdrs
      [("Authorization", "Bearer " ++ accessToken), ("Content-Type", "application/json")]
      options.headers
  , body := options.body
  , token := accessToken }

/-- Model of the private `refreshAccessToken` method
(src/graph-client.ts:124-138).  Returns the thrown message or the
updated state, together with the refresher invocations (at most one). -/
def refreshAccessToken (w : World) (st : GraphState) (refreshToken : String) :
    Except String GraphState × List (String × String × String × String) :=
  let tenantId := jsOrD w.env.tenantId "common"
  let clientId := jsOrD w.env.clientId "084a3e9f-a9f4-43f7-89f9-d229cf97853e"
  if truthy w.env.clientSecret then
    let clientSecret := getStr w.env.clientSecret
    let call := (refreshToken, clientId, clientSecret, tenantId)
    match w.refresher with
    | .error e => (.error e, [call])
    | .ok rr =>
      (.ok { accessToken := some rr.access_token
           , refreshToken := if truthy rr.refresh_token then rr.refresh_token else st.refreshToken },
       [call])
  else
    (.error "MS365_MCP_CLIENT_SECRET not configured", [])

/-- Body normalization of a 2xx response (src/graph-client.ts:91-102):
empty text yields `{message:"OK!"}`, JSON text yields the parsed value,
non-JSON text yields `{message:"OK!", rawResponse: text}`. -/
def normalizeBody (text : String) : Json :=
  if text = "" then Json.obj [("message", Json.str "OK!")]
  else
    match parseJson text with
    | some v => v
    | none => Json.obj [("message", Json.str "OK!"), ("rawResponse", Json.str text)]

/-- Generic API error message (src/graph-client.ts:80-82 and 85-89). -/
def apiErrorMessage (r : HttpResponse) : String :=
  "Microsoft Graph API error: " ++ toString r.status ++ " " ++ r.statusText ++ " - " ++ r.bodyText

/-- Scope/permission error message (src/graph-client.ts:76-78). -/
def scopeErrorMessage (r : HttpResponse) : String :=
  "Microsoft Graph API scope error: " ++ toString r.status ++ " " ++ r.statusText ++ " - "
    ++ r.bodyText
    ++ ". This tool requires organization mode. Please restart with --org-mode flag."

/-- The `_etag` value attached on `includeHeaders` requests
(src/graph-client.ts:106-112): `response.headers.get('ETag') ||
response.headers.get('etag') || 'no-etag-found'`. -/
def etagValue (resp : HttpResponse) : String :=
  jsOrD (jsOr (headersGet resp.headers "ETag") (headersGet resp.headers "etag")) "no-etag-found"

/-- Classification and normalization of the final (non-retried-further)
response (src/graph-client.ts:73-117): 403 with scope/permission wording
throws the scope error, any other non-2xx throws the generic error, a
2xx body is normalized and, if `includeHeaders` was requested and the
result is a plain object, an `_etag` field is attached from the `ETag`
header (`"no-etag-found"` when absent or empty). -/
def classifyAndNormalize (resp : HttpResponse) (opts : Options) : Except String Json :=
  if resp.status = 403 then
    if containsSub resp.bodyText "scope" || containsSub resp.bodyText "permission" then
      .error (scopeErrorMessage resp)
    else
      .error (apiErrorMessage resp)
  else if ¬ (200 ≤ resp.status ∧ resp.status ≤ 299) then
    .error (apiErrorMessage resp)
  else
    let result := normalizeBody resp.bodyText
    if opts.includeHeaders then
      match result with
      | Json.obj fs => .ok (Json.obj (upsertField fs "_etag" (Json.str (etagValue resp))))
      | r => .ok r
    else
      .ok result

/-- Body of the `try` block of `makeRequest` (src/graph-client.ts:56-117),
entered with a resolved, truthy access token. -/
def makeRequestCore (w : World) (st : GraphState) (endpoint : String) (opts : Options)
    (accessToken : String) (refreshTok : Option String) (authCalls : Nat) : MakeResult :=
  let req0 := performRequest endpoint accessToken opts
  match w.transport 0 with
  | .error e => ⟨.error e, st, ⟨authCalls, [req0], 0, []⟩⟩
  | .ok resp0 =>
    if resp0.status = 401 ∧ truthy refreshTok = true then
      match refreshAccessToken w st (getStr refreshTok) with
      | (.error e, calls) => ⟨.error e, st, ⟨authCalls, [req0], 1, calls⟩⟩
      | (.ok st1, calls) =>
        let accessToken2 := jsOr st1.accessToken (some accessToken)
        if truthy accessToken2 = true then
          let req1 := performRequest endpoint (getStr accessToken2) opts
          match w.transport 1 with
          | .error e => ⟨.error e, st1, ⟨authCalls, [req0, req1], 1, calls⟩⟩
          | .ok resp1 => ⟨classifyAndNormalize resp1 opts, st1, ⟨authCalls, [req0, req1], 1, calls⟩⟩
        else
          ⟨.error "Failed to refresh access token", st1, ⟨authCalls, [req0], 1, calls⟩⟩
    else
      ⟨classifyAndNormalize resp0 opts, st, ⟨authCalls, [req0], 0, []⟩⟩

/-- Model of `makeRequest` (src/graph-client.ts:46-122).  Token
resolution short-circuits: `options.accessToken || this.accessToken ||
(await this.authManager.getToken())`, so the credential source is
consulted only when the first two are falsy; a falsy resolved token
throws `No access token available` before any request is issued. -/
def makeRequest (w : World) (st : GraphState) (endpoint : String) (opts : Options) : MakeResult :=
  let pre := jsOr opts.accessToken st.accessToken
  let refreshTok := jsOr opts.refreshToken st.refreshToken
  if truthy pre = true then
    makeRequestCore w st endpoint opts (getStr pre) refreshTok 0
  else
    match w.authToken with
    | .error e => ⟨.error e, st, ⟨1, [], 0, []⟩⟩
    | .ok t =>
      let tok := jsOr pre t
      if truthy tok = true then
        makeRequestCore w st endpoint opts (getStr tok) refreshTok 1
      else
        ⟨.error "No access token available", st, ⟨1, [], 0, []⟩⟩

/-- The access token `makeRequest` resolves for the call, if any
(mirrors the resolution chain; `none` when resolution fails or the
credential source throws). -/
def resolvedToken (w : World) (st : GraphState) (opts : Options) : Option String :=
  let pre := jsOr opts.accessToken st.accessToken
  if truthy pre = true then pre
  else
    match w.authToken with
    | .error _ => none
    | .ok t =>
      let tok := jsOr pre t
      if truthy tok = true then tok else none

/-- The `_meta` object assembled in the `_headers`-wrapper branch of
`formatJsonResponse` (src/graph-client.ts:186-192). -/
def wrapperMeta (data : Json) : List (String × Json) :=
  (match data.getField "_etag" with
   | some v => if v.truthy then [("etag", v)] else []
   | none => [])
  ++
  (match data.getField "_headers" with
   | some v => if v.truthy then [("headers", v)] else []
   | none => [])

/-- Model of `formatJsonResponse` (src/graph-client.ts:177-260).  The
`_headers`-wrapper branch is taken when the value is an object carrying
a `_headers` key; `JSON.stringify(undefined)` is `undefined`, modelled
as a `none` text. -/
def formatJsonResponse (data : Json) (rawResponse : Bool) : McpResponse :=
  if data.hasField "_headers" = true then
    let d := data.getField "data"
    let meta := wrapperMeta data
    if rawResponse then
      { content := [⟨"text", d.map Json.stringify⟩], meta := some meta, isError := none }
    else
      match d with
      | none =>
        { content := [⟨"text", some (Json.stringify (Json.obj [("success", Json.bool true)]))⟩]
        , meta := some meta, isError := none }
      | some Json.null =>
        { content := [⟨"text", some (Json.stringify (Json.obj [("success", Json.bool true)]))⟩]
        , meta := some meta, isError := none }
      | some v =>
        { content := [⟨"text", some (Json.prettyStringify (removeODataProps v))⟩]
        , meta := some meta, isError := none }
  else if rawResponse then
    { content := [⟨"text", some (Json.stringify data)⟩], meta := none, isError := none }
  else
    match data with
    | Json.null =>
      { content := [⟨"text", some (Json.stringify (Json.obj [("success", Json.bool true)]))⟩]
      , meta := none, isError := none }
    | d =>
      { content := [⟨"text", some (Json.prettyStringify (removeODataProps d))⟩]
      , meta := none, isError := none }

/-- Model of `graphRequest` (src/graph-client.ts:160-175): formats the
`makeRequest` value on success and converts any thrown message into the
terminal error envelope. -/
def graphRequest (w : World) (st : GraphState) (endpoint : String) (opts : Options) :
    McpResponse × GraphState × Trace :=
  let m := makeRequest w st endpoint opts
  match m.result with
  | .ok v => (formatJsonResponse v opts.rawResponse, m.state, m.trace)
  | .error e =>
    ({ content := [⟨"text", some (Json.stringify (Json.obj [("error", Json.str e)]))⟩]
     , meta := none, isError := some true },
     m.state, m.trace)

end GraphClient

theorem jsOr_falsy (a b : Option String) (h : truthy a = false) : jsOr a b = b := by
  cases a with
  | none => rfl
  | some s => simp [truthy] at h; simp [jsOr, h]

theorem truthy_eq_some (a : Option String) (h : truthy a = true) : a = some (getStr a) := by
  cases a with
  | none => simp [truthy] at h
  | some s => rfl

mutual

theorem removeOData_clean : ∀ v : Json, hasODataKey (removeODataProps v) = false
  | Json.null => rfl
  | Json.bool _ => rfl
  | Json.num _ => rfl
  | Json.str _ => rfl
  | Json.arr xs => removeODataElems_clean xs
  | Json.obj fs => removeODataFields_clean fs

theorem removeODataFields_clean :
    ∀ fs : List (String × Json), fieldsHaveOData (removeODataFields fs) = false
  | [] => rfl
  | (k, v) :: fs => by
    have h1 := removeOData_clean v
    have h2 := removeODataFields_clean fs
    show fieldsHaveOData
      (if isODataKey k then removeODataFields fs
       else (k, removeODataProps v) :: removeODataFields fs) = false
    by_cases h : isODataKey k
    · rw [if_pos h]; exact h2
    · rw [if_neg h]
      show (isODataKey k || hasODataKey (removeODataProps v)
        || fieldsHaveOData (removeODataFields fs)) = false
      simp [h, h1, h2]

theorem removeODataElems_clean :
    ∀ xs : List Json, elemsHaveOData (removeODataElems xs) = false
  | [] => rfl
  | x :: xs => by
    have h1 := removeOData_clean x
    have h2 := removeODataElems_clean xs
    show (hasODataKey (removeODataProps x) || elemsHaveOData (removeODataElems xs)) = false
    simp [h1, h2]

end

mutual

theorem removeOData_id : ∀ v : Json, hasODataKey v = false → removeODataProps v = v
  | Json.null, _ => rfl
  | Json.bool _, _ => rfl
  | Json.num _, _ => rfl
  | Json.str _, _ => rfl
  | Json.arr xs, h => by
    have h2 := removeODataElems_id xs h
    show Json.arr (removeODataElems xs) = Json.arr xs
    rw [h2]
  | Json.obj fs, h => by
    have h2 := removeODataFields_id fs h
    show Json.obj (removeODataFields fs) = Json.obj fs
    rw [h2]

theorem removeODataFields_id :
    ∀ fs : List (String × Json), fieldsHaveOData fs = false → removeODataFields fs = fs
  | [], _ => rfl
  | (k, v) :: fs, h => by
    have h' : (isODataKey k || hasODataKey v || fieldsHaveOData fs) = false := h
    simp only [Bool.or_eq_false_iff] at h'
    have h1 := removeOData_id v h'.1.2
    have h2 := removeODataFields_id fs h'.2
    show (if isODataKey k then removeODataFields fs
      else (k, removeODataProps v) :: removeODataFields fs) = (k, v) :: fs
    rw [if_neg (by simp [h'.1.1]), h1, h2]

theorem removeODataElems_id :
    ∀ xs : List Json, elemsHaveOData xs = false → removeODataElems xs = xs
  | [], _ => rfl
  | x :: xs, h => by
    have h' : (hasODataKey x || elemsHaveOData xs) = false := h
    simp only [Bool.or_eq_false_iff] at h'
    have h1 := removeOData_id x h'.1
    have h2 := removeODataElems_id xs h'.2
    show removeODataProps x :: removeODataElems xs = x :: xs
    rw [h1, h2]

end

theorem removeODataElems_eq_map : ∀ xs : List Json, removeODataElems xs = xs.map removeODataProps
  | [] => rfl
  | x :: xs => by simp [removeODataElems, removeODataElems_eq_map xs]

theorem removeODataFields_eq_filterMap :
    ∀ fs : List (String × Json),
      removeODataFields fs =
        (fs.filter (fun p => ! isODataKey p.1)).map (fun p => (p.1, removeODataProps p.2))
  | [] => rfl
  | (k, v) :: fs => by
    by_cases h : isODataKey k
    · simp [removeODataFields, h, removeODataFields_eq_filterMap fs, List.filter]
    · simp [removeODataFields, h, removeODataFields_eq_filterMap fs, List.filter]

theorem objLookup_upsert : ∀ (fs : List (String × Json)) (k : String) (v : Json),
    objLookup (upsertField fs k v) k = some v
  | [], k, v => by simp [upsertField, objLookup]
  | (k0, v0) :: fs, k, v => by
    by_cases h : k0 = k
    · simp [upsertField, h, objLookup]
    · simp [upsertField, h, objLookup, objLookup_upsert fs k v, Ne.symm h]

theorem listStarts_self : ∀ l : List Char, listStarts l l = true
  | [] => rfl
  | c :: cs => by simp [listStarts, listStarts_self cs]

theorem listStarts_append : ∀ n l m : List Char,
    listStarts n l = true → listStarts n (l ++ m) = true
  | [], _, _, _ => rfl
  | a :: as, [], m, h => by simp [listStarts] at h
  | a :: as, b :: bs, m, h => by
    simp only [listStarts] at h ⊢
    by_cases hab : a = b
    · simpa [hab] using listStarts_append as bs m (by simpa [hab] using h)
    · simp [hab] at h

theorem listHasInfix_append_right : ∀ l n m : List Char,
    listHasInfix l n = true → listHasInfix (l ++ m) n = true
  | [], n, m, h => by
    simp only [listHasInfix] at h
    cases n with
    | nil =>
      cases m with
      | nil => rfl
      | cons c cs => simp [listHasInfix, listStarts]
    | cons c cs => simp [listStarts] at h
  | c :: rest, n, m, h => by
    simp only [listHasInfix, Bool.or_eq_true] at h ⊢
    rcases h with h | h
    · exact Or.inl (listStarts_append n (c :: rest) m h)
    · exact Or.inr (listHasInfix_append_right rest n m h)

theorem listHasInfix_append_left : ∀ l m n : List Char,
    listHasInfix m n = true → listHasInfix (l ++ m) n = true
  | [], m, n, h => h
  | c :: cs, m, n, h => by
    have := listHasInfix_append_left cs m n h
    simp [listHasInfix, this]

theorem listHasInfix_self : ∀ l : List Char, listHasInfix l l = true
  | [] => rfl
  | c :: cs => by simp [listHasInfix, listStarts_self]

theorem toList_append (a b : String) : (a ++ b).toList = a.toList ++ b.toList := by
  simp [String.toList, String.data_append]

theorem containsSub_append_of_right (a b x : String) (h : containsSub b x = true) :
    containsSub (a ++ b) x = true := by
  simp only [containsSub, toList_append]
  exact listHasInfix_append_left a.toList b.toList x.toList h

theorem containsSub_append_of_left (a b x : String) (h : containsSub a x = true) :
    containsSub (a ++ b) x = true := by
  simp only [containsSub, toList_append]
  exact listHasInfix_append_right a.toList x.toList b.toList h

theorem containsSub_trailing (a x : String) : containsSub (a ++ x) x = true := by
  simp only [containsSub, toList_append]
  exact listHasInfix_append_left a.toList x.toList x.toList (listHasInfix_self x.toList)

/-- Concrete payload with `@odata.` keys at two nesting depths, used as
the C3 witness input. -/
def c3Data : Json :=
  Json.obj [("@odata.context", Json.str "ctx"),
    ("value", Json.arr [Json.obj [("@odata.etag", Json.str "e"), ("id", Json.num "1")]])]

/-- C3: for every value formatted by `formatJsonResponse` without
`rawResponse` (and outside the separately specified `null` /
`_headers`-wrapper shapes), the output text is the 2-space-indented
serialization of `removeODataProps` of the value; no `@odata.`-prefixed
key survives the stripping at any depth; values free of such keys are
left unchanged (so sibling keys and nested non-object values are
untouched); arrays are recursed into element-wise and objects keep
their surviving fields in order; and on the `_headers`-wrapper branch
with a present non-null `data` field the same stripping and 2-space
serialization applies. -/
theorem formatJsonResponse_odata_invariant (data : Json)
    (h1 : data ≠ Json.null) (h2 : Json.hasField data "_headers" = false) :
    GraphClient.formatJsonResponse data false =
      { content := [⟨"text", some (Json.prettyStringify (removeODataProps data))⟩]
      , meta := none, isError := none }
    ∧ hasODataKey (removeODataProps data) = false
    ∧ (∀ v : Json, hasODataKey v = false → removeODataProps v = v)
    ∧ (∀ xs : List Json, removeODataProps (Json.arr xs) = Json.arr (xs.map removeODataProps))
    ∧ (∀ fs : List (String × Json),
        removeODataProps (Json.obj fs) =
          Json.obj ((fs.filter (fun p => ! isODataKey p.1)).map
            (fun p => (p.1, removeODataProps p.2))))
    ∧ (∀ data2 d : Json, Json.hasField data2 "_headers" = true →
        data2.getField "data" = some d → d ≠ Json.null →
        GraphClient.formatJsonResponse data2 false =
          { content := [⟨"text", some (Json.prettyStringify (removeODataProps d))⟩]
          , meta := some (GraphClient.wrapperMeta data2), isError := none }) := by
  refine ⟨?_, removeOData_clean data, fun v hv => removeOData_id v hv, ?_, ?_, ?_⟩
  · cases data with
    | null => exact absurd rfl h1
    | bool b => rfl
    | num l => rfl
    | str s => rfl
    | arr xs => rfl
    | obj fs => simp [GraphClient.formatJsonResponse, h2]
  · intro xs
    show Json.arr (removeODataElems xs) = Json.arr (xs.map removeODataProps)
    rw [removeODataElems_eq_map]
  · intro fs
    show Json.obj (removeODataFields fs) = _
    rw [removeODataFields_eq_filterMap]
  · intro data2 d hh hd hdn
    cases d with
    | null => exact absurd rfl hdn
    | bool b => simp [GraphClient.formatJsonResponse, hh, hd]
    | num l => simp [GraphClient.formatJsonResponse, hh, hd]
    | str s => simp [GraphClient.formatJsonResponse, hh, hd]
    | arr xs => simp [GraphClient.formatJsonResponse, hh, hd]
    | obj fs => simp [GraphClient.formatJsonResponse, hh, hd]

/-- Witness for C3: the invariant evaluated at `c3Data`, whose
`@odata.context` and nested `@odata.etag` keys are both gone from the
2-space-indented output. -/
theorem formatJsonResponse_odata_invariant_witness :
    (GraphClient.formatJsonResponse c3Data false).content
      = [⟨"text", some "\x7b\n  \"value\": [\n    \x7b\n      \"id\": 1\n    \x7d\n  ]\n\x7d"⟩]
    ∧ hasODataKey (removeODataProps c3Data) = false := by
  have h := formatJsonResponse_odata_invariant c3Data
    (fun hc => Json.noConfusion hc) rfl
  refine ⟨?_, h.2.1⟩
  rw [h.1]
  rfl

/-- C5: a completed 403 response whose body mentions `scope` or
`permission` fails with the distinguished scope error, which carries
the status, status text and body text and mentions the organization-mode
guidance; a 403 without such wording and every other non-2xx status
fail with the generic API error carrying status, status text and body
text. -/
theorem classifyAndNormalize_classification (resp : HttpResponse) (opts : Options) :
    (resp.status = 403 →
      (containsSub resp.bodyText "scope" || containsSub resp.bodyText "permission") = true →
      GraphClient.classifyAndNormalize resp opts = .error (GraphClient.scopeErrorMessage resp)
      ∧ containsSub (GraphClient.scopeErrorMessage resp) "organization mode" = true
      ∧ containsSub (GraphClient.scopeErrorMessage resp) resp.bodyText = true
      ∧ containsSub (GraphClient.scopeErrorMessage resp) resp.statusText = true
      ∧ containsSub (GraphClient.scopeErrorMessage resp) (toString resp.status) = true)
    ∧ (resp.status = 403 →
      (containsSub resp.bodyText "scope" || containsSub resp.bodyText "permission") = false →
      GraphClient.classifyAndNormalize resp opts = .error (GraphClient.apiErrorMessage resp))
    ∧ (¬ (200 ≤ resp.status ∧ resp.status ≤ 299) → resp.status ≠ 403 →
      GraphClient.classifyAndNormalize resp opts = .error (GraphClient.apiErrorMessage resp)
      ∧ containsSub (GraphClient.apiErrorMessage resp) resp.bodyText = true
      ∧ containsSub (GraphClient.apiErrorMessage resp) resp.statusText = true
      ∧ containsSub (GraphClient.apiErrorMessage resp) (toString resp.status) = true) := by
  refine ⟨?_, ?_, ?_⟩
  · intro h1 h2
    refine ⟨by simp [GraphClient.classifyAndNormalize, h1, h2], ?_, ?_, ?_, ?_⟩
    · exact containsSub_append_of_right _ _ _ rfl
    · exact containsSub_append_of_left _ _ _ (containsSub_trailing _ _)
    · exact containsSub_append_of_left _ _ _ (containsSub_append_of_left _ _ _
        (containsSub_append_of_left _ _ _ (containsSub_trailing _ _)))
    · exact containsSub_append_of_left _ _ _ (containsSub_append_of_left _ _ _
        (containsSub_append_of_left _ _ _ (containsSub_append_of_left _ _ _
          (containsSub_append_of_left _ _ _ (containsSub_trailing _ _)))))
  · intro h1 h2
    simp [GraphClient.classifyAndNormalize, h1, h2]
  · intro h1 h2
    refine ⟨by simp [GraphClient.classifyAndNormalize, h1, h2], ?_, ?_, ?_⟩
    · exact containsSub_trailing _ _
    · exact containsSub_append_of_left _ _ _ (containsSub_append_of_left _ _ _
        (containsSub_trailing _ _))
    · exact containsSub_append_of_left _ _ _ (containsSub_append_of_left _ _ _
        (containsSub_append_of_left _ _ _ (containsSub_append_of_left _ _ _
          (containsSub_trailing _ _))))

/-- Witness for C5: a 403 with body `Insufficient privileges: scope`
yields the full scope error message with org-mode guidance, and a plain
500 yields the generic API error. -/
theorem classifyAndNormalize_classification_witness :
    GraphClient.classifyAndNormalize ⟨403, "Forbidden", [], "Insufficient privileges: scope"⟩
        noOptions
      = .error "Microsoft Graph API scope error: 403 Forbidden - Insufficient privileges: scope. This tool requires organization mode. Please restart with --org-mode flag."
    ∧ GraphClient.classifyAndNormalize ⟨500, "Server Error", [], "boom"⟩ noOptions
      = .error "Microsoft Graph API error: 500 Server Error - boom" := by
  have h1 := (classifyAndNormalize_classification
    ⟨403, "Forbidden", [], "Insufficient privileges: scope"⟩ noOptions).1 rfl rfl
  have h2 := (classifyAndNormalize_classification
    ⟨500, "Server Error", [], "boom"⟩ noOptions).2.2 (by decide) (by decide)
  exact ⟨by rw [h1.1]; rfl, by rw [h2.1]; rfl⟩

/-- C6: on a 2xx first response (with a resolved per-call token and no
header injection requested) the call returns the normalized body, and
normalization is the three-way function: empty text gives
`{message:"OK!"}`, JSON text gives the parsed value, non-JSON text gives
`{message:"OK!", rawResponse: text}`. -/
theorem makeRequest_body_normalization (w : World) (st : GraphState) (ep : String)
    (opts : Options) (r : HttpResponse)
    (ht : truthy opts.accessToken = true)
    (h0 : w.transport 0 = .ok r)
    (h2a : 200 ≤ r.status) (h2b : r.status ≤ 299)
    (hinc : opts.includeHeaders = false) :
    (GraphClient.makeRequest w st ep opts).result = .ok (GraphClient.normalizeBody r.bodyText)
    ∧ (r.bodyText = "" →
        GraphClient.normalizeBody r.bodyText = Json.obj [("message", Json.str "OK!")])
    ∧ (∀ v : Json, parseJson r.bodyText = some v → GraphClient.normalizeBody r.bodyText = v)
    ∧ (r.bodyText ≠ "" → parseJson r.bodyText = none →
        GraphClient.normalizeBody r.bodyText =
          Json.obj [("message", Json.str "OK!"), ("rawResponse", Json.str r.bodyText)]) := by
  have h401 : ¬ r.status = 401 := by omega
  have h403 : ¬ r.status = 403 := by omega
  have hok : (200 ≤ r.status ∧ r.status ≤ 299) := ⟨h2a, h2b⟩
  refine ⟨?_, ?_, ?_, ?_⟩
  · cases hopt : opts.accessToken with
    | none => rw [hopt] at ht; simp [truthy] at ht
    | some s =>
      have hs : ¬ s = "" := by rw [hopt] at ht; simpa [truthy] using ht
      simp [GraphClient.makeRequest, GraphClient.makeRequestCore, hopt, jsOr, hs, truthy,
        getStr, h0, h401, GraphClient.classifyAndNormalize, h403, hok, hinc]
  · intro he
    simp [GraphClient.normalizeBody, he]
  · intro v hv
    by_cases he : r.bodyText = ""
    · rw [he] at hv
      simp [show parseJson "" = none from rfl] at hv
    · simp [GraphClient.normalizeBody, he, hv]
  · intro hne hp
    simp [GraphClient.normalizeBody, hne, hp]

/-- Witness for C6: a 2xx response with body `{"a":[1,2]}` is parsed,
one with an empty body yields `{message:"OK!"}`, and a non-JSON body is
wrapped with `rawResponse`. -/
theorem makeRequest_body_normalization_witness :
    (GraphClient.makeRequest
        ⟨⟨none, none, none⟩, .ok none, fun _ => .ok ⟨200, "OK", [], "\x7b\"a\":[1,2]\x7d"⟩,
          .error "unused"⟩
        ⟨none, none⟩ "/me" { noOptions with accessToken := some "tok" }).result
      = .ok (Json.obj [("a", Json.arr [Json.num "1", Json.num "2"])])
    ∧ (GraphClient.makeRequest
        ⟨⟨none, none, none⟩, .ok none, fun _ => .ok ⟨204, "No Content", [], ""⟩, .error "unused"⟩
        ⟨none, none⟩ "/me" { noOptions with accessToken := some "tok" }).result
      = .ok (Json.obj [("message", Json.str "OK!")])
    ∧ (GraphClient.makeRequest
        ⟨⟨none, none, none⟩, .ok none, fun _ => .ok ⟨200, "OK", [], "plain"⟩, .error "unused"⟩
        ⟨none, none⟩ "/me" { noOptions with accessToken := some "tok" }).result
      = .ok (Json.obj [("message", Json.str "OK!"), ("rawResponse", Json.str "plain")]) := by
  refine ⟨?_, ?_, ?_⟩
  · have h := makeRequest_body_normalization
      ⟨⟨none, none, none⟩, .ok none, fun _ => .ok ⟨200, "OK", [], "\x7b\"a\":[1,2]\x7d"⟩,
        .error "unused"⟩
      ⟨none, none⟩ "/me" { noOptions with accessToken := some "tok" }
      ⟨200, "OK", [], "\x7b\"a\":[1,2]\x7d"⟩ rfl rfl (by decide) (by decide) rfl
    rw [h.1, h.2.2.1 (Json.obj [("a", Json.arr [Json.num "1", Json.num "2"])]) rfl]
  · have h := makeRequest_body_normalization
      ⟨⟨none, none, none⟩, .ok none, fun _ => .ok ⟨204, "No Content", [], ""⟩, .error "unused"⟩
      ⟨none, none⟩ "/me" { noOptions with accessToken := some "tok" }
      ⟨204, "No Content", [], ""⟩ rfl rfl (by decide) (by decide) rfl
    rw [h.1, h.2.1 rfl]
  · have h := makeRequest_body_normalization
      ⟨⟨none, none, none⟩, .ok none, fun _ => .ok ⟨200, "OK", [], "plain"⟩, .error "unused"⟩
      ⟨none, none⟩ "/me" { noOptions with accessToken := some "tok" }
      ⟨200, "OK", [], "plain"⟩ rfl rfl (by decide) (by decide) rfl
    rw [h.1, h.2.2.2 (by decide) rfl]

/-- Case-insensitivity of the header lookup: `ETag` and `etag` resolve
identically. -/
theorem headersGet_etag_ci (hs : List (String × String)) :
    headersGet hs "ETag" = headersGet hs "etag" := rfl

/-- C7: with `includeHeaders` requested, a 2xx response whose normalized
result is a plain object carries an `_etag` field equal to the `ETag`
header value (case-insensitive lookup), defaulting to `no-etag-found`
when the header is absent; array and scalar results are returned
unchanged with no `_etag` attached. -/
theorem classifyAndNormalize_etag (resp : HttpResponse) (opts : Options)
    (hinc : opts.includeHeaders = true)
    (h2a : 200 ≤ resp.status) (h2b : resp.status ≤ 299) :
    (∀ fs : List (String × Json), GraphClient.normalizeBody resp.bodyText = Json.obj fs →
      GraphClient.classifyAndNormalize resp opts =
        .ok (Json.obj (upsertField fs "_etag" (Json.str (GraphClient.etagValue resp))))
      ∧ Json.getField (Json.obj (upsertField fs "_etag" (Json.str (GraphClient.etagValue resp))))
          "_etag" = some (Json.str (GraphClient.etagValue resp)))
    ∧ (∀ v : String, headersGet resp.headers "ETag" = some v → v ≠ "" →
        GraphClient.etagValue resp = v)
    ∧ (headersGet resp.headers "ETag" = none →
        GraphClient.etagValue resp = "no-etag-found")
    ∧ (∀ xs : List Json, GraphClient.normalizeBody resp.bodyText = Json.arr xs →
        GraphClient.classifyAndNormalize resp opts = .ok (Json.arr xs))
    ∧ (∀ s : String, GraphClient.normalizeBody resp.bodyText = Json.str s →
        GraphClient.classifyAndNormalize resp opts = .ok (Json.str s))
    ∧ (∀ l : String, GraphClient.normalizeBody resp.bodyText = Json.num l →
        GraphClient.classifyAndNormalize resp opts = .ok (Json.num l))
    ∧ (∀ b : Bool, GraphClient.normalizeBody resp.bodyText = Json.bool b →
        GraphClient.classifyAndNormalize resp opts = .ok (Json.bool b))
    ∧ (GraphClient.normalizeBody resp.bodyText = Json.null →
        GraphClient.classifyAndNormalize resp opts = .ok Json.null) := by
  have h403 : ¬ resp.status = 403 := by omega
  have hok : (200 ≤ resp.status ∧ resp.status ≤ 299) := ⟨h2a, h2b⟩
  refine ⟨?_, ?_, ?_, ?_, ?_, ?_, ?_, ?_⟩
  · intro fs hfs
    constructor
    · simp [GraphClient.classifyAndNormalize, h403, hok, hinc, hfs]
    · show objLookup (upsertField fs "_etag" (Json.str (GraphClient.etagValue resp))) "_etag" = _
      exact objLookup_upsert fs "_etag" (Json.str (GraphClient.etagValue resp))
  · intro v hv hne
    rw [GraphClient.etagValue, hv]
    simp [jsOr, jsOrD, hne]
  · intro hv
    rw [GraphClient.etagValue, hv, ← headersGet_etag_ci, hv]
    rfl
  · intro xs hxs
    simp [GraphClient.classifyAndNormalize, h403, hok, hinc, hxs]
  · intro s hs
    simp [GraphClient.classifyAndNormalize, h403, hok, hinc, hs]
  · intro l hl
    simp [GraphClient.classifyAndNormalize, h403, hok, hinc, hl]
  · intro b hb
    simp [GraphClient.classifyAndNormalize, h403, hok, hinc, hb]
  · intro hn
    simp [GraphClient.classifyAndNormalize, h403, hok, hinc, hn]

/-- Witness for C7: a 2xx object response with an `ETag` header gets the
header value as `_etag` (case-insensitive lookup of a lower-case
header), one without the header gets `no-etag-found`, and an array
result is returned unchanged. -/
theorem classifyAndNormalize_etag_witness :
    GraphClient.classifyAndNormalize ⟨200, "OK", [("etag", "W1")], "\x7b\"id\":\"1\"\x7d"⟩
        { noOptions with includeHeaders := true }
      = .ok (Json.obj [("id", Json.str "1"), ("_etag", Json.str "W1")])
    ∧ GraphClient.classifyAndNormalize ⟨200, "OK", [], "\x7b\"id\":\"1\"\x7d"⟩
        { noOptions with includeHeaders := true }
      = .ok (Json.obj [("id", Json.str "1"), ("_etag", Json.str "no-etag-found")])
    ∧ GraphClient.classifyAndNormalize ⟨200, "OK", [("etag", "W1")], "[1]"⟩
        { noOptions with includeHeaders := true }
      = .ok (Json.arr [Json.num "1"]) := by
  refine ⟨?_, ?_, ?_⟩
  · have h := (classifyAndNormalize_etag ⟨200, "OK", [("etag", "W1")], "\x7b\"id\":\"1\"\x7d"⟩
      { noOptions with includeHeaders := true } rfl (by decide) (by decide)).1
      [("id", Json.str "1")] rfl
    rw [h.1]; rfl
  · have h := (classifyAndNormalize_etag ⟨200, "OK", [], "\x7b\"id\":\"1\"\x7d"⟩
      { noOptions with includeHeaders := true } rfl (by decide) (by decide)).1
      [("id", Json.str "1")] rfl
    rw [h.1]; rfl
  · exact (classifyAndNormalize_etag ⟨200, "OK", [("etag", "W1")], "[1]"⟩
      { noOptions with includeHeaders := true } rfl (by decide) (by decide)).2.2.2.1
      [Json.num "1"] rfl

/-- Number of refresher invocations per refresh attempt is at most one. -/
theorem refreshAccessToken_calls_le (w : World) (st : GraphState) (rt : String) :
    (GraphClient.refreshAccessToken w st rt).2.length ≤ 1 := by
  unfold GraphClient.refreshAccessToken
  by_cases h : truthy w.env.clientSecret = true
  · simp only [h, if_pos]
    cases w.refresher <;> simp
  · simp [h]

/-- Shape facts about the `try`-block body: the first issued request
carries the resolved token, the auth-call count is the one passed in,
and at most two requests, one refresh attempt and one refresher
invocation happen. -/
theorem makeRequestCore_shape (w : World) (st : GraphState) (ep : String) (opts : Options)
    (tok : String) (rt : Option String) (ac : Nat) :
    ((GraphClient.makeRequestCore w st ep opts tok rt ac).trace.requests.map
        IssuedRequest.token).head? = some tok
    ∧ (GraphClient.makeRequestCore w st ep opts tok rt ac).trace.authCalls = ac
    ∧ (GraphClient.makeRequestCore w st ep opts tok rt ac).trace.requests.length ≤ 2
    ∧ (GraphClient.makeRequestCore w st ep opts tok rt ac).trace.refreshAttempts ≤ 1
    ∧ (GraphClient.makeRequestCore w st ep opts tok rt ac).trace.refresherCalls.length ≤ 1 := by
  unfold GraphClient.makeRequestCore
  cases htr : w.transport 0 with
  | error e => simp [GraphClient.performRequest]
  | ok r =>
    by_cases hc : (r.status = 401 ∧ truthy rt = true)
    · simp only [if_pos hc]
      have hlen := refreshAccessToken_calls_le w st (getStr rt)
      rcases hre : GraphClient.refreshAccessToken w st (getStr rt) with ⟨res, calls⟩
      rw [hre] at hlen
      cases res with
      | error e => simpa [GraphClient.performRequest] using hlen
      | ok st1 =>
        by_cases h2 : truthy (jsOr st1.accessToken (some tok)) = true
        · simp only [h2, if_pos]
          cases w.transport 1 <;> simpa [GraphClient.performRequest] using hlen
        · simp only [h2]
          simpa [GraphClient.performRequest] using hlen
    · simp [hc, GraphClient.performRequest]

/-- Unfolding of `makeRequest` when `options.accessToken ||
this.accessToken` already resolves to a truthy token. -/
theorem makeRequest_pre (w : World) (st : GraphState) (ep : String) (opts : Options)
    (s : String) (h : jsOr opts.accessToken st.accessToken = some s) (hs : s ≠ "") :
    GraphClient.makeRequest w st ep opts =
      GraphClient.makeRequestCore w st ep opts s (jsOr opts.refreshToken st.refreshToken) 0 := by
  simp only [GraphClient.makeRequest]
  rw [h, if_pos (by simp [truthy, hs])]
  rfl

/-- Unfolding of `makeRequest` when the credential source is consulted
and throws. -/
theorem makeRequest_authThrow (w : World) (st : GraphState) (ep : String) (opts : Options)
    (e : String) (h1 : truthy (jsOr opts.accessToken st.accessToken) = false)
    (hA : w.authToken = .error e) :
    GraphClient.makeRequest w st ep opts = ⟨.error e, st, ⟨1, [], 0, []⟩⟩ := by
  simp only [GraphClient.makeRequest]
  rw [if_neg (by simp [h1]), hA]

/-- Unfolding of `makeRequest` when the credential source is consulted
and answers. -/
theorem makeRequest_authOk (w : World) (st : GraphState) (ep : String) (opts : Options)
    (t : Option String) (h1 : truthy (jsOr opts.accessToken st.accessToken) = false)
    (hA : w.authToken = .ok t) :
    GraphClient.makeRequest w st ep opts =
      (if truthy t = true then
        GraphClient.makeRequestCore w st ep opts (getStr t)
          (jsOr opts.refreshToken st.refreshToken) 1
      else ⟨.error "No access token available", st, ⟨1, [], 0, []⟩⟩) := by
  simp only [GraphClient.makeRequest]
  rw [if_neg (by simp [h1]), hA]
  show (if truthy (jsOr (jsOr opts.accessToken st.accessToken) t) = true then
      GraphClient.makeRequestCore w st ep opts
        (getStr (jsOr (jsOr opts.accessToken st.accessToken) t))
        (jsOr opts.refreshToken st.refreshToken) 1
    else ⟨.error "No access token available", st, ⟨1, [], 0, []⟩⟩) = _
  rw [jsOr_falsy _ _ h1]

/-- C4: the access token for a call is resolved as the per-call
override, else the stored token, else a pull from the credential
source, which is consulted exactly when the first two are absent
(falsy); if all three yield nothing the call throws
`No access token available` before any request, refresh attempt or
refresher invocation happens. -/
theorem makeRequest_token_resolution (w : World) (st : GraphState) (ep : String)
    (opts : Options) :
    (truthy opts.accessToken = true →
      (GraphClient.makeRequest w st ep opts).trace.authCalls = 0
      ∧ ((GraphClient.makeRequest w st ep opts).trace.requests.map IssuedRequest.token).head?
          = some (getStr opts.accessToken))
    ∧ (truthy opts.accessToken = false → truthy st.accessToken = true →
      (GraphClient.makeRequest w st ep opts).trace.authCalls = 0
      ∧ ((GraphClient.makeRequest w st ep opts).trace.requests.map IssuedRequest.token).head?
          = some (getStr st.accessToken))
    ∧ (truthy opts.accessToken = false → truthy st.accessToken = false →
      (GraphClient.makeRequest w st ep opts).trace.authCalls = 1)
    ∧ (∀ t : Option String, truthy opts.accessToken = false → truthy st.accessToken = false →
        w.authToken = .ok t → truthy t = true →
        ((GraphClient.makeRequest w st ep opts).trace.requests.map IssuedRequest.token).head?
          = some (getStr t))
    ∧ (∀ t : Option String, truthy opts.accessToken = false → truthy st.accessToken = false →
        w.authToken = .ok t → truthy t = false →
        (GraphClient.makeRequest w st ep opts).result = .error "No access token available"
        ∧ (GraphClient.makeRequest w st ep opts).trace.requests = []
        ∧ (GraphClient.makeRequest w st ep opts).trace.refreshAttempts = 0
        ∧ (GraphClient.makeRequest w st ep opts).trace.refresherCalls = []) := by
  refine ⟨?_, ?_, ?_, ?_, ?_⟩
  · intro ht
    cases hopt : opts.accessToken with
    | none => rw [hopt] at ht; simp [truthy] at ht
    | some s =>
      have hs : ¬ s = "" := by rw [hopt] at ht; simpa [truthy] using ht
      rw [makeRequest_pre w st ep opts s (by rw [hopt]; simp [jsOr, hs]) hs]
      have hcore := makeRequestCore_shape w st ep opts s
        (jsOr opts.refreshToken st.refreshToken) 0
      exact ⟨hcore.2.1, hcore.1⟩
  · intro h1 h2
    have hpre : jsOr opts.accessToken st.accessToken = st.accessToken := jsOr_falsy _ _ h1
    cases hst : st.accessToken with
    | none => rw [hst] at h2; simp [truthy] at h2
    | some s =>
      have hs : ¬ s = "" := by rw [hst] at h2; simpa [truthy] using h2
      rw [makeRequest_pre w st ep opts s (by rw [hpre, hst]) hs]
      have hcore := makeRequestCore_shape w st ep opts s
        (jsOr opts.refreshToken st.refreshToken) 0
      exact ⟨hcore.2.1, hcore.1⟩
  · intro h1 h2
    have hpre : truthy (jsOr opts.accessToken st.accessToken) = false := by
      rw [jsOr_falsy _ _ h1]; exact h2
    cases hA : w.authToken with
    | error e => rw [makeRequest_authThrow w st ep opts e hpre hA]
    | ok t =>
      rw [makeRequest_authOk w st ep opts t hpre hA]
      by_cases h3 : truthy t = true
      · rw [if_pos h3]
        exact (makeRequestCore_shape w st ep opts (getStr t)
          (jsOr opts.refreshToken st.refreshToken) 1).2.1
      · rw [if_neg h3]
  · intro t h1 h2 hA h3
    have hpre : truthy (jsOr opts.accessToken st.accessToken) = false := by
      rw [jsOr_falsy _ _ h1]; exact h2
    rw [makeRequest_authOk w st ep opts t hpre hA, if_pos h3]
    exact (makeRequestCore_shape w st ep opts (getStr t)
      (jsOr opts.refreshToken st.refreshToken) 1).1
  · intro t h1 h2 hA h3
    have hpre : truthy (jsOr opts.accessToken st.accessToken) = false := by
      rw [jsOr_falsy _ _ h1]; exact h2
    rw [makeRequest_authOk w st ep opts t hpre hA, if_neg (by simp [h3])]
    exact ⟨rfl, rfl, rfl, rfl⟩

/-- Witness for C4: with no override, no stored token and a credential
source yielding nothing, the call fails with the no-token error, issues
no request and attempts no refresh, after one credential-source
consultation. -/
theorem makeRequest_token_resolution_witness :
    (GraphClient.makeRequest ⟨⟨none, none, none⟩, .ok none, fun _ => .error "unreachable",
        .error "unused"⟩ ⟨none, none⟩ "/me" noOptions).result
      = .error "No access token available"
    ∧ (GraphClient.makeRequest ⟨⟨none, none, none⟩, .ok none, fun _ => .error "unreachable",
        .error "unused"⟩ ⟨none, none⟩ "/me" noOptions).trace.requests = []
    ∧ (GraphClient.makeRequest ⟨⟨none, none, none⟩, .ok none, fun _ => .error "unreachable",
        .error "unused"⟩ ⟨none, none⟩ "/me" noOptions).trace.authCalls = 1 := by
  have h := makeRequest_token_resolution ⟨⟨none, none, none⟩, .ok none,
    fun _ => .error "unreachable", .error "unused"⟩ ⟨none, none⟩ "/me" noOptions
  have h5 := h.2.2.2.2 none rfl rfl rfl rfl
  exact ⟨h5.1, h5.2.1, h.2.2.1 rfl rfl⟩

/-- The refresher invocation tuple of a refresh attempt. -/
def refreshCallOf (w : World) (rt : Option String) : String × String × String × String :=
  (getStr rt, jsOrD w.env.clientId "084a3e9f-a9f4-43f7-89f9-d229cf97853e",
   getStr w.env.clientSecret, jsOrD w.env.tenantId "common")

/-- Unfolding of the `try`-block body on a transport failure of the
first request. -/
theorem makeRequestCore_transportError (w : World) (st : GraphState) (ep : String)
    (opts : Options) (tok : String) (rt : Option String) (ac : Nat) (e : String)
    (h0 : w.transport 0 = .error e) :
    GraphClient.makeRequestCore w st ep opts tok rt ac =
      ⟨.error e, st, ⟨ac, [GraphClient.performRequest ep tok opts], 0, []⟩⟩ := by
  simp only [GraphClient.makeRequestCore, h0]

/-- Unfolding of the `try`-block body when no retry is triggered (first
response not a 401, or no refresh token available). -/
theorem makeRequestCore_noRetry (w : World) (st : GraphState) (ep : String)
    (opts : Options) (tok : String) (rt : Option String) (ac : Nat) (r0 : HttpResponse)
    (h0 : w.transport 0 = .ok r0) (hc : ¬ (r0.status = 401 ∧ truthy rt = true)) :
    GraphClient.makeRequestCore w st ep opts tok rt ac =
      ⟨GraphClient.classifyAndNormalize r0 opts, st,
       ⟨ac, [GraphClient.performRequest ep tok opts], 0, []⟩⟩ := by
  simp only [GraphClient.makeRequestCore, h0]
  rw [if_neg hc]

/-- Unfolding of the refresh path when the client secret is not
configured: the refresh attempt aborts before the refresher is invoked
and no retry happens. -/
theorem makeRequestCore_refresh_configError (w : World) (st : GraphState) (ep : String)
    (opts : Options) (tok : String) (rt : Option String) (ac : Nat) (r0 : HttpResponse)
    (h0 : w.transport 0 = .ok r0) (h401 : r0.status = 401) (hrt : truthy rt = true)
    (hsec : truthy w.env.clientSecret = false) :
    GraphClient.makeRequestCore w st ep opts tok rt ac =
      ⟨.error "MS365_MCP_CLIENT_SECRET not configured", st,
       ⟨ac, [GraphClient.performRequest ep tok opts], 1, []⟩⟩ := by
  simp only [GraphClient.makeRequestCore, h0]
  rw [if_pos ⟨h401, hrt⟩]
  simp only [GraphClient.refreshAccessToken]
  rw [if_neg (by simp [hsec])]

/-- Unfolding of the refresh path when the refresher itself throws:
its error propagates and no retry happens. -/
theorem makeRequestCore_refresh_refresherError (w : World) (st : GraphState) (ep : String)
    (opts : Options) (tok : String) (rt : Option String) (ac : Nat) (r0 : HttpResponse)
    (e : String)
    (h0 : w.transport 0 = .ok r0) (h401 : r0.status = 401) (hrt : truthy rt = true)
    (hsec : truthy w.env.clientSecret = true) (href : w.refresher = .error e) :
    GraphClient.makeRequestCore w st ep opts tok rt ac =
      ⟨.error e, st,
       ⟨ac, [GraphClient.performRequest ep tok opts], 1, [refreshCallOf w rt]⟩⟩ := by
  simp only [GraphClient.makeRequestCore, h0]
  rw [if_pos ⟨h401, hrt⟩]
  simp only [GraphClient.refreshAccessToken, href]
  rw [if_pos hsec]
  rfl

/-- Unfolding of the refresh path on a successful refresh: the stored
state is updated, exactly one refresher invocation and a second
transport call happen, and the final result reflects the retried
response. -/
theorem makeRequestCore_refresh_success (w : World) (st : GraphState) (ep : String)
    (opts : Options) (tok : String) (rt : Option String) (ac : Nat) (r0 : HttpResponse)
    (rr : RefreshResponse)
    (htok : tok ≠ "")
    (h0 : w.transport 0 = .ok r0) (h401 : r0.status = 401) (hrt : truthy rt = true)
    (hsec : truthy w.env.clientSecret = true) (href : w.refresher = .ok rr) :
    GraphClient.makeRequestCore w st ep opts tok rt ac =
      ⟨(match w.transport 1 with
        | .error e => .error e
        | .ok r1 => GraphClient.classifyAndNormalize r1 opts),
       ⟨some rr.access_token,
        if truthy rr.refresh_token = true then rr.refresh_token else st.refreshToken⟩,
       ⟨ac,
        [GraphClient.performRequest ep tok opts,
         GraphClient.performRequest ep (getStr (jsOr (some rr.access_token) (some tok))) opts],
        1, [refreshCallOf w rt]⟩⟩ := by
  simp only [GraphClient.makeRequestCore, h0]
  rw [if_pos ⟨h401, hrt⟩]
  simp only [GraphClient.refreshAccessToken, href]
  rw [if_pos hsec]
  have h2 : truthy (jsOr (some rr.access_token) (some tok)) = true := by
    by_cases ha : rr.access_token = "" <;> simp [jsOr, truthy, ha, htok]
  simp only [h2, if_pos]
  cases hw1 : w.transport 1 <;> simp [hw1, refreshCallOf]

/-- Case analysis of a `makeRequest` call: either the token resolution
succeeds and the `try`-block body runs, or no request, refresh attempt
or refresher invocation happens at all. -/
theorem makeRequest_cases (w : World) (st : GraphState) (ep : String) (opts : Options) :
    (∃ tok ac, GraphClient.resolvedToken w st opts = some tok ∧ tok ≠ "" ∧
      GraphClient.makeRequest w st ep opts =
        GraphClient.makeRequestCore w st ep opts tok (jsOr opts.refreshToken st.refreshToken) ac)
    ∨ (GraphClient.resolvedToken w st opts = none
        ∧ (GraphClient.makeRequest w st ep opts).trace.requests = []
        ∧ (GraphClient.makeRequest w st ep opts).trace.refreshAttempts = 0
        ∧ (GraphClient.makeRequest w st ep opts).trace.refresherCalls = []
        ∧ (GraphClient.makeRequest w st ep opts).state = st) := by
  by_cases h1 : truthy (jsOr opts.accessToken st.accessToken) = true
  · cases hj : jsOr opts.accessToken st.accessToken with
    | none => rw [hj] at h1; simp [truthy] at h1
    | some s =>
      have hs : s ≠ "" := by rw [hj] at h1; simpa [truthy] using h1
      left
      refine ⟨s, 0, ?_, hs, makeRequest_pre w st ep opts s hj hs⟩
      unfold GraphClient.resolvedToken
      rw [if_pos h1, hj]
  · have h1' : truthy (jsOr opts.accessToken st.accessToken) = false := by simpa using h1
    cases hA : w.authToken with
    | error e =>
      right
      rw [makeRequest_authThrow w st ep opts e h1' hA]
      refine ⟨?_, rfl, rfl, rfl, rfl⟩
      unfold GraphClient.resolvedToken
      rw [if_neg h1, hA]
    | ok t =>
      by_cases h3 : truthy t = true
      · left
        cases ht' : t with
        | none => rw [ht'] at h3; simp [truthy] at h3
        | some s =>
          have hs : s ≠ "" := by rw [ht'] at h3; simpa [truthy] using h3
          refine ⟨s, 1, ?_, hs, ?_⟩
          · unfold GraphClient.resolvedToken
            rw [if_neg h1, hA]
            show (if truthy (jsOr (jsOr opts.accessToken st.accessToken) t) = true then
                jsOr (jsOr opts.accessToken st.accessToken) t else none) = some s
            rw [jsOr_falsy _ _ h1', if_pos h3, ht']
          · rw [makeRequest_authOk w st ep opts t h1' hA, if_pos h3, ht']
            rfl
      · right
        rw [makeRequest_authOk w st ep opts t h1' hA, if_neg h3]
        refine ⟨?_, rfl, rfl, rfl, rfl⟩
        unfold GraphClient.resolvedToken
        rw [if_neg h1, hA]
        show (if truthy (jsOr (jsOr opts.accessToken st.accessToken) t) = true then
            jsOr (jsOr opts.accessToken st.accessToken) t else none) = none
        rw [jsOr_falsy _ _ h1', if_neg h3]

/-- Resolution success pins down the `try`-block run. -/
theorem makeRequest_resolved (w : World) (st : GraphState) (ep : String) (opts : Options)
    (tok : String) (h : GraphClient.resolvedToken w st opts = some tok) :
    tok ≠ "" ∧ ∃ ac, GraphClient.makeRequest w st ep opts =
      GraphClient.makeRequestCore w st ep opts tok (jsOr opts.refreshToken st.refreshToken) ac := by
  rcases makeRequest_cases w st ep opts with ⟨tok', ac, hres, hne, heq⟩ | ⟨hres, _⟩
  · rw [h] at hres
    injection hres with h'
    subst h'
    exact ⟨hne, ac, heq⟩
  · rw [h] at hres
    simp at hres

/-- A refresh attempt happens exactly when the first response is a 401
and a refresh token is available. -/
theorem makeRequestCore_refreshAttempts_iff (w : World) (st : GraphState) (ep : String)
    (opts : Options) (tok : String) (rt : Option String) (ac : Nat) :
    (GraphClient.makeRequestCore w st ep opts tok rt ac).trace.refreshAttempts = 1
    ↔ ∃ r0 : HttpResponse, w.transport 0 = .ok r0 ∧ r0.status = 401 ∧ truthy rt = true := by
  cases htr : w.transport 0 with
  | error e =>
    rw [makeRequestCore_transportError w st ep opts tok rt ac e htr]
    constructor
    · intro h
      simp at h
    · rintro ⟨r0, hr, _, _⟩
      exact Except.noConfusion hr
  | ok r0 =>
    by_cases hc : (r0.status = 401 ∧ truthy rt = true)
    · constructor
      · intro _
        exact ⟨r0, rfl, hc.1, hc.2⟩
      · intro _
        simp only [GraphClient.makeRequestCore, htr]
        rw [if_pos hc]
        rcases hre : GraphClient.refreshAccessToken w st (getStr rt) with ⟨res, calls⟩
        cases res with
        | error e => rfl
        | ok st1 =>
          cases hw1 : w.transport 1 <;>
            by_cases h2 : truthy (jsOr st1.accessToken (some tok)) = true <;>
              simp [h2, hw1]
    · rw [makeRequestCore_noRetry w st ep opts tok rt ac r0 htr hc]
      constructor
      · intro h
        simp at h
      · rintro ⟨r0', he, h4, h5⟩
        injection he with he'
        exact absurd ⟨he' ▸ h4, h5⟩ hc

/-- C2 (amended): a refresh is attempted iff the first response is a
401 and a refresh token (override or stored) is available; when
additionally the client secret is configured and the refresher
succeeds, exactly one refresher call and exactly two transport calls
happen and the final result reflects the retried response; a second 401
after the retry propagates as the generic API error; at most one retry
per call; no retry for any other status or for a transport failure; a
401 without a refresh token yields the generic API error with no
refresh attempted; a failing refresh attempt (missing secret or
refresher error) propagates its own error with no second transport
call. -/
theorem makeRequest_retry_protocol (w : World) (st : GraphState) (ep : String)
    (opts : Options) :
    ((GraphClient.makeRequest w st ep opts).trace.requests.length ≤ 2
      ∧ (GraphClient.makeRequest w st ep opts).trace.refreshAttempts ≤ 1
      ∧ (GraphClient.makeRequest w st ep opts).trace.refresherCalls.length ≤ 1)
    ∧ ((GraphClient.makeRequest w st ep opts).trace.refreshAttempts = 1
      ↔ ((∃ tok : String, GraphClient.resolvedToken w st opts = some tok)
         ∧ ∃ r0 : HttpResponse, w.transport 0 = .ok r0 ∧ r0.status = 401
           ∧ truthy (jsOr opts.refreshToken st.refreshToken) = true))
    ∧ (∀ (tok : String) (r0 : HttpResponse) (rr : RefreshResponse),
        GraphClient.resolvedToken w st opts = some tok →
        w.transport 0 = .ok r0 → r0.status = 401 →
        truthy (jsOr opts.refreshToken st.refreshToken) = true →
        truthy w.env.clientSecret = true → w.refresher = .ok rr →
        (GraphClient.makeRequest w st ep opts).trace.requests.length = 2
        ∧ (GraphClient.makeRequest w st ep opts).trace.refresherCalls.length = 1
        ∧ (GraphClient.makeRequest w st ep opts).result =
            (match w.transport 1 with
             | .error e => .error e
             | .ok r1 => GraphClient.classifyAndNormalize r1 opts))
    ∧ (∀ (tok : String) (r0 r1 : HttpResponse) (rr : RefreshResponse),
        GraphClient.resolvedToken w st opts = some tok →
        w.transport 0 = .ok r0 → r0.status = 401 →
        truthy (jsOr opts.refreshToken st.refreshToken) = true →
        truthy w.env.clientSecret = true → w.refresher = .ok rr →
        w.transport 1 = .ok r1 → r1.status = 401 →
        (GraphClient.makeRequest w st ep opts).result =
          .error (GraphClient.apiErrorMessage r1))
    ∧ (∀ (tok : String) (r0 : HttpResponse),
        GraphClient.resolvedToken w st opts = some tok →
        w.transport 0 = .ok r0 →
        ¬ (r0.status = 401 ∧ truthy (jsOr opts.refreshToken st.refreshToken) = true) →
        (GraphClient.makeRequest w st ep opts).trace.refreshAttempts = 0
        ∧ (GraphClient.makeRequest w st ep opts).trace.requests.length = 1
        ∧ (GraphClient.makeRequest w st ep opts).result =
            GraphClient.classifyAndNormalize r0 opts)
    ∧ (∀ (tok e : String),
        GraphClient.resolvedToken w st opts = some tok →
        w.transport 0 = .error e →
        (GraphClient.makeRequest w st ep opts).result = .error e
        ∧ (GraphClient.makeRequest w st ep opts).trace.requests.length = 1
        ∧ (GraphClient.makeRequest w st ep opts).trace.refreshAttempts = 0)
    ∧ (∀ (tok : String) (r0 : HttpResponse),
        GraphClient.resolvedToken w st opts = some tok →
        w.transport 0 = .ok r0 → r0.status = 401 →
        truthy (jsOr opts.refreshToken st.refreshToken) = false →
        (GraphClient.makeRequest w st ep opts).trace.refreshAttempts = 0
        ∧ (GraphClient.makeRequest w st ep opts).result =
            .error (GraphClient.apiErrorMessage r0))
    ∧ (∀ (tok : String) (r0 : HttpResponse),
        GraphClient.resolvedToken w st opts = some tok →
        w.transport 0 = .ok r0 → r0.status = 401 →
        truthy (jsOr opts.refreshToken st.refreshToken) = true →
        truthy w.env.clientSecret = false →
        (GraphClient.makeRequest w st ep opts).result =
          .error "MS365_MCP_CLIENT_SECRET not configured"
        ∧ (GraphClient.makeRequest w st ep opts).trace.requests.length = 1
        ∧ (GraphClient.makeRequest w st ep opts).trace.refresherCalls = [])
    ∧ (∀ (tok e : String) (r0 : HttpResponse),
        GraphClient.resolvedToken w st opts = some tok →
        w.transport 0 = .ok r0 → r0.status = 401 →
        truthy (jsOr opts.refreshToken st.refreshToken) = true →
        truthy w.env.clientSecret = true → w.refresher = .error e →
        (GraphClient.makeRequest w st ep opts).result = .error e
        ∧ (GraphClient.makeRequest w st ep opts).trace.requests.length = 1
        ∧ (GraphClient.makeRequest w st ep opts).trace.refresherCalls.length = 1) := by
  refine ⟨?_, ?_, ?_, ?_, ?_, ?_, ?_, ?_, ?_⟩
  · rcases makeRequest_cases w st ep opts with ⟨tok, ac, _, _, heq⟩ | ⟨_, h1, h2, h3, _⟩
    · rw [heq]
      exact (makeRequestCore_shape w st ep opts tok _ ac).2.2
    · rw [h1, h2, h3]
      exact ⟨by simp, by omega, by simp⟩
  · rcases makeRequest_cases w st ep opts with ⟨tok, ac, hres, _, heq⟩ | ⟨hres, _, hatt, _, _⟩
    · rw [heq, makeRequestCore_refreshAttempts_iff]
      constructor
      · intro h
        exact ⟨⟨tok, hres⟩, h⟩
      · intro h
        exact h.2
    · rw [hatt]
      constructor
      · intro h
        exact absurd h (by decide)
      · rintro ⟨⟨tok, htok⟩, _⟩
        rw [hres] at htok
        simp at htok
  · intro tok r0 rr hres h0 h401 hrt hsec href
    obtain ⟨hne, ac, heq⟩ := makeRequest_resolved w st ep opts tok hres
    rw [heq, makeRequestCore_refresh_success w st ep opts tok _ ac r0 rr hne h0 h401 hrt hsec href]
    exact ⟨rfl, rfl, rfl⟩
  · intro tok r0 r1 rr hres h0 h401 hrt hsec href hw1 h401b
    obtain ⟨hne, ac, heq⟩ := makeRequest_resolved w st ep opts tok hres
    rw [heq, makeRequestCore_refresh_success w st ep opts tok _ ac r0 rr hne h0 h401 hrt hsec href]
    show (match w.transport 1 with
      | .error e => Except.error e
      | .ok r1 => GraphClient.classifyAndNormalize r1 opts) = _
    rw [hw1]
    simp [GraphClient.classifyAndNormalize, h401b]
  · intro tok r0 hres h0 hc
    obtain ⟨hne, ac, heq⟩ := makeRequest_resolved w st ep opts tok hres
    rw [heq, makeRequestCore_noRetry w st ep opts tok _ ac r0 h0 hc]
    exact ⟨rfl, rfl, rfl⟩
  · intro tok e hres h0
    obtain ⟨hne, ac, heq⟩ := makeRequest_resolved w st ep opts tok hres
    rw [heq, makeRequestCore_transportError w st ep opts tok _ ac e h0]
    exact ⟨rfl, rfl, rfl⟩
  · intro tok r0 hres h0 h401 hrt
    obtain ⟨hne, ac, heq⟩ := makeRequest_resolved w st ep opts tok hres
    rw [heq, makeRequestCore_noRetry w st ep opts tok _ ac r0 h0 (by simp [hrt])]
    refine ⟨rfl, ?_⟩
    show GraphClient.classifyAndNormalize r0 opts = _
    simp [GraphClient.classifyAndNormalize, h401]
  · intro tok r0 hres h0 h401 hrt hsec
    obtain ⟨hne, ac, heq⟩ := makeRequest_resolved w st ep opts tok hres
    rw [heq, makeRequestCore_refresh_configError w st ep opts tok _ ac r0 h0 h401 hrt hsec]
    exact ⟨rfl, rfl, rfl⟩
  · intro tok e r0 hres h0 h401 hrt hsec href
    obtain ⟨hne, ac, heq⟩ := makeRequest_resolved w st ep opts tok hres
    rw [heq, makeRequestCore_refresh_refresherError w st ep opts tok _ ac r0 e h0 h401 hrt hsec href]
    exact ⟨rfl, rfl, rfl⟩

/-- World of the C2 counterexample: first response 401, refresh token
stored, but the client secret environment variable is unset. -/
def c2NoSecretWorld : World :=
  { env := ⟨none, none, none⟩
  , authToken := .ok none
  , transport := fun _ => .ok ⟨401, "Unauthorized", [], "expired"⟩
  , refresher := .ok ⟨"newtok", none⟩ }

/-- Counterexample to C2 as frozen: on a 401 with a refresh token
available the refresh is attempted, yet only one transport call and no
refresher call happen — the claimed "exactly one refresh call and
exactly two transport calls" fails when the client secret is not
configured. -/
theorem makeRequest_retry_claim_counterexample :
    (GraphClient.makeRequest c2NoSecretWorld ⟨some "old", some "ref"⟩ "/me"
        noOptions).trace.refreshAttempts = 1
    ∧ (GraphClient.makeRequest c2NoSecretWorld ⟨some "old", some "ref"⟩ "/me"
        noOptions).trace.requests.length = 1
    ∧ (GraphClient.makeRequest c2NoSecretWorld ⟨some "old", some "ref"⟩ "/me"
        noOptions).trace.refresherCalls.length = 0
    ∧ (GraphClient.makeRequest c2NoSecretWorld ⟨some "old", some "ref"⟩ "/me"
        noOptions).result = .error "MS365_MCP_CLIENT_SECRET not configured" :=
  ⟨rfl, rfl, rfl, rfl⟩

/-- World of the C2 witness: 401, then a successful refresh and a 2xx
retry. -/
def c2RetryWorld : World :=
  { env := ⟨none, none, some "sec"⟩
  , authToken := .ok none
  , transport := fun n =>
      if n = 0 then .ok ⟨401, "Unauthorized", [], "expired"⟩
      else .ok ⟨200, "OK", [], "\x7b\"v\":2\x7d"⟩
  , refresher := .ok ⟨"newtok", some "newref"⟩ }

/-- Witness for C2: the 401 / successful-refresh / 2xx-retry scenario
makes exactly two transport calls and one refresher call, and the final
result is the parsed retried response. -/
theorem makeRequest_retry_protocol_witness :
    (GraphClient.makeRequest c2RetryWorld ⟨some "old", some "ref"⟩ "/me"
        noOptions).trace.requests.length = 2
    ∧ (GraphClient.makeRequest c2RetryWorld ⟨some "old", some "ref"⟩ "/me"
        noOptions).trace.refresherCalls.length = 1
    ∧ (GraphClient.makeRequest c2RetryWorld ⟨some "old", some "ref"⟩ "/me"
        noOptions).result = .ok (Json.obj [("v", Json.num "2")]) := by
  have h := (makeRequest_retry_protocol c2RetryWorld ⟨some "old", some "ref"⟩ "/me"
    noOptions).2.2.1 "old" ⟨401, "Unauthorized", [], "expired"⟩ ⟨"newtok", some "newref"⟩
    rfl rfl rfl rfl rfl rfl
  refine ⟨h.1, h.2.1, ?_⟩
  rw [h.2.2]
  rfl

/-- C8: a refresh attempt reads tenant id (default `common`) and client
id (default the fixed literal application id) from the environment; a
missing client secret aborts the attempt with a configuration error
before the refresher is invoked, and the original request is not
retried. -/
theorem refreshAccessToken_config (w : World) (st : GraphState) (rt : String) :
    (truthy w.env.clientSecret = false →
      GraphClient.refreshAccessToken w st rt =
        (.error "MS365_MCP_CLIENT_SECRET not configured", []))
    ∧ (truthy w.env.clientSecret = true →
      (GraphClient.refreshAccessToken w st rt).2 =
        [(rt, jsOrD w.env.clientId "084a3e9f-a9f4-43f7-89f9-d229cf97853e",
          getStr w.env.clientSecret, jsOrD w.env.tenantId "common")])
    ∧ (w.env.tenantId = none → jsOrD w.env.tenantId "common" = "common")
    ∧ (w.env.clientId = none →
        jsOrD w.env.clientId "084a3e9f-a9f4-43f7-89f9-d229cf97853e"
          = "084a3e9f-a9f4-43f7-89f9-d229cf97853e")
    ∧ (∀ (ep : String) (opts : Options) (tok : String) (r0 : HttpResponse),
        GraphClient.resolvedToken w st opts = some tok →
        w.transport 0 = .ok r0 → r0.status = 401 →
        truthy (jsOr opts.refreshToken st.refreshToken) = true →
        truthy w.env.clientSecret = false →
        (GraphClient.makeRequest w st ep opts).result =
          .error "MS365_MCP_CLIENT_SECRET not configured"
        ∧ (GraphClient.makeRequest w st ep opts).trace.requests.length = 1
        ∧ (GraphClient.makeRequest w st ep opts).trace.refresherCalls = []) := by
  refine ⟨?_, ?_, ?_, ?_, ?_⟩
  · intro h
    unfold GraphClient.refreshAccessToken
    rw [if_neg (by simp [h])]
  · intro h
    unfold GraphClient.refreshAccessToken
    rw [if_pos h]
    cases w.refresher <;> rfl
  · intro h
    rw [h]
    rfl
  · intro h
    rw [h]
    rfl
  · intro ep opts tok r0 hres h0 h401 hrt hsec
    obtain ⟨hne, ac, heq⟩ := makeRequest_resolved w st ep opts tok hres
    rw [heq, makeRequestCore_refresh_configError w st ep opts tok _ ac r0 h0 h401 hrt hsec]
    exact ⟨rfl, rfl, rfl⟩

/-- Witness for C8: with no environment configured the refresh attempt
fails with the configuration error and zero refresher invocations;
with a secret configured the refresher receives the default client id
and the default `common` tenant. -/
theorem refreshAccessToken_config_witness :
    GraphClient.refreshAccessToken ⟨⟨none, none, none⟩, .ok none,
        fun _ => .error "t", .ok ⟨"a", none⟩⟩ ⟨none, none⟩ "ref"
      = (.error "MS365_MCP_CLIENT_SECRET not configured", [])
    ∧ (GraphClient.refreshAccessToken ⟨⟨none, none, some "sec"⟩, .ok none,
        fun _ => .error "t", .ok ⟨"a", none⟩⟩ ⟨none, none⟩ "ref").2
      = [("ref", "084a3e9f-a9f4-43f7-89f9-d229cf97853e", "sec", "common")] := by
  constructor
  · exact (refreshAccessToken_config ⟨⟨none, none, none⟩, .ok none,
      fun _ => .error "t", .ok ⟨"a", none⟩⟩ ⟨none, none⟩ "ref").1 rfl
  · have h := (refreshAccessToken_config ⟨⟨none, none, some "sec"⟩, .ok none,
      fun _ => .error "t", .ok ⟨"a", none⟩⟩ ⟨none, none⟩ "ref").2.1 rfl
    rw [h]
    rfl

/-- C10: a successful refresh always overwrites the stored access token
with the refresher's access token; the stored refresh token is
overwritten only when the refresher response carries one and is kept
otherwise. -/
theorem refreshAccessToken_token_update (w : World) (st : GraphState) (rt : String)
    (rr : RefreshResponse) (hsec : truthy w.env.clientSecret = true)
    (href : w.refresher = .ok rr) :
    (GraphClient.refreshAccessToken w st rt).1 =
      .ok ⟨some rr.access_token,
           if truthy rr.refresh_token = true then rr.refresh_token else st.refreshToken⟩
    ∧ (∀ s : String, rr.refresh_token = some s → s ≠ "" →
        (GraphClient.refreshAccessToken w st rt).1 = .ok ⟨some rr.access_token, some s⟩)
    ∧ (rr.refresh_token = none →
        (GraphClient.refreshAccessToken w st rt).1 = .ok ⟨some rr.access_token, st.refreshToken⟩) := by
  have hbase : (GraphClient.refreshAccessToken w st rt).1 =
      .ok ⟨some rr.access_token,
           if truthy rr.refresh_token = true then rr.refresh_token else st.refreshToken⟩ := by
    unfold GraphClient.refreshAccessToken
    rw [if_pos hsec]
    simp only [href]
  refine ⟨hbase, ?_, ?_⟩
  · intro s hs hne
    rw [hbase, hs, if_pos (by simp [truthy, hne])]
  · intro hs
    rw [hbase, hs, if_neg (by simp [truthy])]

/-- Witness for C10: a refresher response carrying a refresh token
replaces both stored tokens; one without a refresh token replaces only
the access token and keeps the old refresh token. -/
theorem refreshAccessToken_token_update_witness :
    (GraphClient.refreshAccessToken ⟨⟨none, none, some "sec"⟩, .ok none,
        fun _ => .error "t", .ok ⟨"newA", some "newR"⟩⟩ ⟨some "oldA", some "oldR"⟩ "oldR").1
      = .ok ⟨some "newA", some "newR"⟩
    ∧ (GraphClient.refreshAccessToken ⟨⟨none, none, some "sec"⟩, .ok none,
        fun _ => .error "t", .ok ⟨"newA", none⟩⟩ ⟨some "oldA", some "oldR"⟩ "oldR").1
      = .ok ⟨some "newA", some "oldR"⟩ := by
  constructor
  · exact (refreshAccessToken_token_update ⟨⟨none, none, some "sec"⟩, .ok none,
      fun _ => .error "t", .ok ⟨"newA", some "newR"⟩⟩ ⟨some "oldA", some "oldR"⟩ "oldR"
      ⟨"newA", some "newR"⟩ rfl rfl).2.1 "newR" rfl (by decide)
  · exact (refreshAccessToken_token_update ⟨⟨none, none, some "sec"⟩, .ok none,
      fun _ => .error "t", .ok ⟨"newA", none⟩⟩ ⟨some "oldA", some "oldR"⟩ "oldR"
      ⟨"newA", none⟩ rfl rfl).2.2 rfl

/-- Within the `try`-block body, the stored credential pair changes only
on a successfully completed refresher exchange. -/
theorem makeRequestCore_state_frame (w : World) (st : GraphState) (ep : String)
    (opts : Options) (tok : String) (rt : Option String) (ac : Nat) (htok : tok ≠ "") :
    ((GraphClient.makeRequestCore w st ep opts tok rt ac).trace.refresherCalls = [] →
      (GraphClient.makeRequestCore w st ep opts tok rt ac).state = st)
    ∧ (∀ e : String, w.refresher = .error e →
      (GraphClient.makeRequestCore w st ep opts tok rt ac).state = st) := by
  cases htr : w.transport 0 with
  | error e0 =>
    rw [makeRequestCore_transportError w st ep opts tok rt ac e0 htr]
    exact ⟨fun _ => rfl, fun _ _ => rfl⟩
  | ok r0 =>
    by_cases hc : (r0.status = 401 ∧ truthy rt = true)
    · by_cases hsec : truthy w.env.clientSecret = true
      · cases href : w.refresher with
        | error e =>
          rw [makeRequestCore_refresh_refresherError w st ep opts tok rt ac r0 e htr hc.1 hc.2
            hsec href]
          exact ⟨fun habs => absurd habs (by simp), fun _ _ => rfl⟩
        | ok rr =>
          rw [makeRequestCore_refresh_success w st ep opts tok rt ac r0 rr htok htr hc.1 hc.2
            hsec href]
          constructor
          · intro habs
            exact absurd habs (by simp)
          · intro e he
            exact Except.noConfusion he
      · rw [makeRequestCore_refresh_configError w st ep opts tok rt ac r0 htr hc.1 hc.2
          (by simpa using hsec)]
        exact ⟨fun _ => rfl, fun _ _ => rfl⟩
    · rw [makeRequestCore_noRetry w st ep opts tok rt ac r0 htr hc]
      exact ⟨fun _ => rfl, fun _ _ => rfl⟩

/-- C9 (amended): within request processing the stored credential pair
is mutated only by a successful refresh — if no refresher invocation
happens, or the refresher throws, the state after the call equals the
state before; `graphRequest` itself never touches the state beyond the
`makeRequest` it wraps; and the only other mutator of the pair is the
explicit `setOAuthTokens` injection, which sets the access token and
the (truthy-filtered) refresh token. -/
theorem credential_state_frame (w : World) (st : GraphState) (ep : String) (opts : Options) :
    ((GraphClient.makeRequest w st ep opts).trace.refresherCalls = [] →
      (GraphClient.makeRequest w st ep opts).state = st)
    ∧ (∀ e : String, w.refresher = .error e →
      (GraphClient.makeRequest w st ep opts).state = st)
    ∧ ((GraphClient.graphRequest w st ep opts).2.1 = (GraphClient.makeRequest w st ep opts).state)
    ∧ (∀ (st' : GraphState) (a : String) (r : Option String),
        GraphClient.setOAuthTokens st' a r =
          ⟨some a, if truthy r = true then r else none⟩) := by
  refine ⟨?_, ?_, ?_, ?_⟩
  · intro hcalls
    rcases makeRequest_cases w st ep opts with ⟨tok, ac, _, hne, heq⟩ | ⟨_, _, _, _, hstate⟩
    · rw [heq] at hcalls ⊢
      exact (makeRequestCore_state_frame w st ep opts tok _ ac hne).1 hcalls
    · exact hstate
  · intro e he
    rcases makeRequest_cases w st ep opts with ⟨tok, ac, _, hne, heq⟩ | ⟨_, _, _, _, hstate⟩
    · rw [heq]
      exact (makeRequestCore_state_frame w st ep opts tok _ ac hne).2 e he
    · exact hstate
  · simp only [GraphClient.graphRequest]
    cases hm : (GraphClient.makeRequest w st ep opts).result <;> simp [hm]
  · intro st' a r
    rfl

/-- Counterexample to C9 as frozen: `setOAuthTokens` is an operation of
the adapter that mutates the stored credential pair without any refresh
having happened. -/
theorem setOAuthTokens_mutates_counterexample :
    GraphClient.setOAuthTokens ⟨none, none⟩ "tokA" (some "refB")
      = ⟨some "tokA", some "refB"⟩
    ∧ (⟨some "tokA", some "refB"⟩ : GraphState) ≠ ⟨none, none⟩ :=
  ⟨rfl, by decide⟩

/-- Witness for C9: a call whose refresh attempt aborts before the
refresher is invoked leaves the stored pair untouched. -/
theorem credential_state_frame_witness :
    (GraphClient.makeRequest c2NoSecretWorld ⟨some "old", some "ref"⟩ "/me"
        noOptions).state = ⟨some "old", some "ref"⟩ := by
  exact (credential_state_frame c2NoSecretWorld ⟨some "old", some "ref"⟩ "/me" noOptions).1 rfl

/-- Shape of every `formatJsonResponse` envelope: one `text` content
element; its text is a JSON serialization except on the
`rawResponse` + `_headers`-wrapper + absent-`data` path, where
`JSON.stringify(undefined)` leaves it undefined. -/
theorem formatJsonResponse_shape (v : Json) (raw : Bool) :
    (GraphClient.formatJsonResponse v raw).content.length = 1
    ∧ (∀ c ∈ (GraphClient.formatJsonResponse v raw).content, c.type = "text")
    ∧ (¬ (raw = true ∧ Json.hasField v "_headers" = true ∧ v.getField "data" = none) →
      ∃ u : Json,
        (GraphClient.formatJsonResponse v raw).content = [⟨"text", some (Json.stringify u)⟩]
        ∨ (GraphClient.formatJsonResponse v raw).content
            = [⟨"text", some (Json.prettyStringify u)⟩]) := by
  unfold GraphClient.formatJsonResponse
  by_cases hh : v.hasField "_headers" = true
  · rw [if_pos hh]
    cases hd : v.getField "data" with
    | none =>
      cases raw with
      | true =>
        refine ⟨rfl, by simp, ?_⟩
        intro hnot
        exact absurd ⟨rfl, hh, rfl⟩ hnot
      | false =>
        refine ⟨rfl, by simp, ?_⟩
        intro _
        exact ⟨Json.obj [("success", Json.bool true)], Or.inl rfl⟩
    | some dv =>
      cases raw with
      | true =>
        refine ⟨rfl, by simp, ?_⟩
        intro _
        exact ⟨dv, Or.inl rfl⟩
      | false =>
        cases dv with
        | null => exact ⟨rfl, by simp, fun _ => ⟨Json.obj [("success", Json.bool true)], Or.inl rfl⟩⟩
        | bool b => exact ⟨rfl, by simp, fun _ => ⟨removeODataProps (Json.bool b), Or.inr rfl⟩⟩
        | num l => exact ⟨rfl, by simp, fun _ => ⟨removeODataProps (Json.num l), Or.inr rfl⟩⟩
        | str s => exact ⟨rfl, by simp, fun _ => ⟨removeODataProps (Json.str s), Or.inr rfl⟩⟩
        | arr xs => exact ⟨rfl, by simp, fun _ => ⟨removeODataProps (Json.arr xs), Or.inr rfl⟩⟩
        | obj fs => exact ⟨rfl, by simp, fun _ => ⟨removeODataProps (Json.obj fs), Or.inr rfl⟩⟩
  · rw [if_neg hh]
    cases raw with
    | true => exact ⟨rfl, by simp, fun _ => ⟨v, Or.inl rfl⟩⟩
    | false =>
      cases v with
      | null => exact ⟨rfl, by simp, fun _ => ⟨Json.obj [("success", Json.bool true)], Or.inl rfl⟩⟩
      | bool b => exact ⟨rfl, by simp, fun _ => ⟨removeODataProps (Json.bool b), Or.inr rfl⟩⟩
      | num l => exact ⟨rfl, by simp, fun _ => ⟨removeODataProps (Json.num l), Or.inr rfl⟩⟩
      | str s => exact ⟨rfl, by simp, fun _ => ⟨removeODataProps (Json.str s), Or.inr rfl⟩⟩
      | arr xs => exact ⟨rfl, by simp, fun _ => ⟨removeODataProps (Json.arr xs), Or.inr rfl⟩⟩
      | obj fs => exact ⟨rfl, by simp, fun _ => ⟨removeODataProps (Json.obj fs), Or.inr rfl⟩⟩

/-- C1 (amended): `graphRequest` always returns an envelope (it is a
total function of the oracles) whose `content` has exactly one element
of type `text`; any failure thrown underneath becomes the terminal
`{error: <message>}` envelope with `isError: true`; and in every case
except the `rawResponse` + `_headers`-wrapper + absent-`data` path the
element's text is a JSON-serialized string. -/
theorem graphRequest_envelope (w : World) (st : GraphState) (ep : String) (opts : Options) :
    ((GraphClient.graphRequest w st ep opts).1.content.length = 1
      ∧ ∀ c ∈ (GraphClient.graphRequest w st ep opts).1.content, c.type = "text")
    ∧ (∀ e : String, (GraphClient.makeRequest w st ep opts).result = .error e →
        (GraphClient.graphRequest w st ep opts).1 =
          { content := [⟨"text", some (Json.stringify (Json.obj [("error", Json.str e)]))⟩]
          , meta := none, isError := some true })
    ∧ (∀ v : Json, (GraphClient.makeRequest w st ep opts).result = .ok v →
        ¬ (opts.rawResponse = true ∧ Json.hasField v "_headers" = true
            ∧ v.getField "data" = none) →
        ∃ u : Json,
          (GraphClient.graphRequest w st ep opts).1.content
            = [⟨"text", some (Json.stringify u)⟩]
          ∨ (GraphClient.graphRequest w st ep opts).1.content
            = [⟨"text", some (Json.prettyStringify u)⟩]) := by
  refine ⟨?_, ?_, ?_⟩
  · simp only [GraphClient.graphRequest]
    cases hm : (GraphClient.makeRequest w st ep opts).result with
    | error e => exact ⟨rfl, by simp⟩
    | ok v =>
      have h := formatJsonResponse_shape v opts.rawResponse
      exact ⟨by simpa using h.1, by simpa using h.2.1⟩
  · intro e he
    simp only [GraphClient.graphRequest, he]
  · intro v hv hnot
    simp only [GraphClient.graphRequest, hv]
    exact (formatJsonResponse_shape v opts.rawResponse).2.2 hnot

/-- World of the C1 counterexample: a 2xx response whose JSON body
itself contains a `_headers` key and no `data` key. -/
def c1RawHeadersWorld : World :=
  { env := ⟨none, none, none⟩
  , authToken := .ok none
  , transport := fun _ => .ok ⟨200, "OK", [], "\x7b\"_headers\":0\x7d"⟩
  , refresher := .error "unused" }

/-- Counterexample to C1 as frozen: with `rawResponse` requested and a
body carrying a `_headers` key but no `data` field, the envelope's
single content element has an undefined text
(`JSON.stringify(undefined)`), not a JSON-serialized string. -/
theorem graphRequest_text_undefined_counterexample :
    (GraphClient.graphRequest c1RawHeadersWorld ⟨some "tok", none⟩ "/x"
        { noOptions with rawResponse := true }).1.content = [⟨"text", none⟩]
    ∧ ∀ u : Json, ¬ ((⟨"text", none⟩ : ContentItem).text = some (Json.stringify u)
        ∨ (⟨"text", none⟩ : ContentItem).text = some (Json.prettyStringify u)) := by
  refine ⟨rfl, ?_⟩
  intro u h
  rcases h with h | h <;> exact Option.noConfusion h

/-- Witness for C1: a failing call is converted into the terminal error
envelope with a JSON-serialized error descriptor. -/
theorem graphRequest_envelope_witness :
    (GraphClient.graphRequest ⟨⟨none, none, none⟩, .ok none, fun _ => .error "unreachable",
        .error "unused"⟩ ⟨none, none⟩ "/me" noOptions).1 =
      { content := [⟨"text", some "\x7b\"error\":\"No access token available\"\x7d"⟩]
      , meta := none, isError := some true } := by
  have h := (graphRequest_envelope ⟨⟨none, none, none⟩, .ok none, fun _ => .error "unreachable",
    .error "unused"⟩ ⟨none, none⟩ "/me" noOptions).2.1 "No access token available" rfl
  rw [h]
  rfl
